import Mathlib

/-!
# lab-otel-goexpert: postal code to temperature, two pipelines

A shallow embedding of the Go packages `servico_a_usecase`, `servico_b_usecase`
and `handlers`, followed by the properties proved about them.

Conventions of the embedding

* A Go `string` is a Lean `String`, read as the sequence of runes that the
  `regexp` engine decodes from it (a byte that is not valid UTF-8 decodes to
  U+FFFD, which no class used here contains).
* A Go `error` is a `GoError`; a nil error or nil pointer is `none`.
* Multiple return values are tuples, in the order of the Go signature.
* Calls that leave the process (HTTP, configuration, trace propagation) are
  fields of an environment record passed to the function that makes them.
-/

namespace LabOtel

/-! ## `regexp`: the fragment used by the validators -/

/-- Parsed regular expression, named after the operators of Go's `regexp/syntax`. -/
inductive Regexp where
  /-- Operator `OpEmptyMatch`: matches the empty string. -/
  | emptyMatch
  /-- Operator `OpCharClass`: one rune lying in one of the inclusive ranges. -/
  | charClass (ranges : List (Char × Char))
  /-- Operator `OpBeginText`: `^` when the multi-line flag is off. -/
  | beginText
  /-- Operator `OpEndText`: `$` when the multi-line flag is off. -/
  | endText
  /-- Operator `OpConcat`, of two expressions. -/
  | concat (a b : Regexp)
  /-- Operator `OpRepeat` with equal bounds, written `sub{n}`. -/
  | rep (n : Nat) (sub : Regexp)

namespace Regexp

/-- Membership of a rune in a character class given as inclusive ranges. -/
def inClass (ranges : List (Char × Char)) (c : Char) : Bool :=
  ranges.any fun r => decide (r.1 ≤ c) && decide (c ≤ r.2)

/-- Run `step` exactly `n` times in sequence, collecting every reachable end position. -/
def iter (step : Nat → List Nat) : Nat → Nat → List Nat
  | 0, pos => [pos]
  | n + 1, pos => (step pos).flatMap (iter step n)

/-- All positions at which a match of the expression starting at `pos` can end. -/
def ends (text : List Char) : Regexp → Nat → List Nat
  | emptyMatch, pos => [pos]
  | charClass ranges, pos =>
    match text[pos]? with
    | some c => if inClass ranges c then [pos + 1] else []
    | none => []
  | beginText, pos => if pos = 0 then [pos] else []
  | endText, pos => if pos = text.length then [pos] else []
  | concat a b, pos => (ends text a pos).flatMap (ends text b)
  | rep n sub, pos => iter (ends text sub) n pos

/-- Method `(*Regexp).MatchString`: does the string contain any match of the expression?
The search is unanchored: every start position is tried. -/
def MatchString (re : Regexp) (s : String) : Bool :=
  (List.range (s.length + 1)).any fun start => !(ends s.data re start).isEmpty

/-- The Perl class `\d`, which in Go is the ASCII range `[0-9]`. -/
def perlDigit : Regexp := charClass [('0', '9')]

end Regexp

/-- Result of `regexp.MustCompile` on the pattern `^\d{8}$`, which both validators use. -/
def zipCodePattern : Regexp :=
  .concat .beginText (.concat (.rep 8 Regexp.perlDigit) .endText)

/-! ## Errors -/

/-- A non-nil Go `error`, as the `fmt` package builds it. -/
inductive GoError where
  /-- An error that carries only its text (`fmt.Errorf` without `%w`, `errors.New`). -/
  | errorString (s : String)
  /-- An error built by `fmt.Errorf` with a `%w` verb: its text and the error it wraps. -/
  | wrapError (msg : String) (err : GoError)
  deriving DecidableEq, Repr

/-- Method `Error()` of a Go error. -/
def GoError.Error : GoError → String
  | errorString s => s
  | wrapError msg _ => msg

/-! ## `float64` -/

/-- An IEEE 754 binary64 value. A finite value is a sign and a magnitude counted in
units of `2^-1074`, the spacing of the subnormal numbers, of which every finite
binary64 is an integer multiple. -/
inductive Float64 where
  | finite (neg : Bool) (units : Nat)
  | inf (neg : Bool)
  | nan
  deriving DecidableEq, Repr

namespace Float64

/-- Number of low-order bits of `n` to drop so that at most 53 significant bits
remain: the least `sh` with `n / 2 ^ sh < 2 ^ 53` (the first argument bounds the search). -/
def excessBits : Nat → Nat → Nat
  | 0, _ => 0
  | fuel + 1, n => if n < 2 ^ 53 then 0 else excessBits fuel (n / 2) + 1

/-- Round the magnitude `p / q` (in units of `2^-1074`, `q > 0`) to binary64:
53 significant bits, to nearest, ties to even; overflow gives infinity. -/
def round (neg : Bool) (p q : Nat) : Float64 :=
  let n := p / q
  let sh := excessBits n n
  let d := q * 2 ^ sh
  let m := p / d
  let r := p % d
  let m1 := if d < 2 * r ∨ (2 * r = d ∧ m % 2 = 1) then m + 1 else m
  if m1 * 2 ^ sh < 2 ^ 2098 then finite neg (m1 * 2 ^ sh) else inf neg

/-- The signed count of units of a finite value. -/
def signed (neg : Bool) (units : Nat) : Int :=
  if neg then -(units : Int) else (units : Int)

/-- Operator `+` on `float64`. -/
def add : Float64 → Float64 → Float64
  | nan, _ => nan
  | _, nan => nan
  | inf s, inf t => if s = t then inf s else nan
  | inf s, finite _ _ => inf s
  | finite _ _, inf t => inf t
  | finite s a, finite t b =>
    let x := signed s a + signed t b
    if x = 0 then finite (s && t) 0 else round (decide (x < 0)) x.natAbs 1

instance : Add Float64 := ⟨add⟩

end Float64

/-- A decimal numeral `± mantissa * 10 ^ exp10`, as written in Go source or in JSON text. -/
structure Decimal where
  neg : Bool
  mantissa : Nat
  exp10 : Int
  deriving DecidableEq, Repr

/-- The binary64 nearest to a decimal numeral (conversion of a Go constant, and
`strconv.ParseFloat(s, 64)`); an infinity signals that the numeral is out of range. -/
def Decimal.toFloat64 (d : Decimal) : Float64 :=
  if 0 ≤ d.exp10 then Float64.round d.neg (d.mantissa * 10 ^ d.exp10.toNat * 2 ^ 1074) 1
  else Float64.round d.neg (d.mantissa * 2 ^ 1074) (10 ^ (-d.exp10).toNat)

/-- Function `strconv.ParseFloat(s, 64)` on a well-formed numeral: `none` is `ErrRange`. -/
def Decimal.ParseFloat (d : Decimal) : Option Float64 :=
  match d.toFloat64 with
  | .finite neg units => some (.finite neg units)
  | _ => none

/-! ## `encoding/json`: decoding a value into a struct -/

/-- A JSON value as the decoder's scanner delivers it. -/
inductive Json where
  | null
  | bool (b : Bool)
  | num (d : Decimal)
  | str (s : String)
  | arr (elems : List Json)
  | obj (members : List (String × Json))

/-- What a response body holds for `json.NewDecoder(body).Decode`: the first JSON
value of the stream, or the error met while reading it (syntax error, early end,
failed read). -/
abbrev JsonStream := Except GoError Json

namespace Json

/-- The word by which `UnmarshalTypeError` names the kind of a value. -/
def kind : Json → String
  | null => "null"
  | bool _ => "bool"
  | num _ => "number"
  | str _ => "string"
  | arr _ => "array"
  | obj _ => "object"

/-- Text of an `UnmarshalTypeError` raised for a struct field (for a numeral out of
range Go also quotes the numeral, which is left out here). -/
def fieldTypeError (value field goType : String) : GoError :=
  .errorString ("json: cannot unmarshal " ++ value ++ " into Go struct field " ++ field ++
    " of type " ++ goType)

/-- Text of an `UnmarshalTypeError` raised for a value that is not inside a struct. -/
def valueTypeError (value goType : String) : GoError :=
  .errorString ("json: cannot unmarshal " ++ value ++ " into Go value of type " ++ goType)

/-- One exported struct field: its JSON name (the struct tag) and how it stores a
JSON value, giving the updated struct and the error raised, if any. -/
structure Field (α : Type) where
  name : String
  store : Json → α → α × Option GoError

/-- Store into a `float64` field; `null` has no effect. -/
def storeFloat64 {α : Type} (path : String) (set : Float64 → α → α) : Json → α → α × Option GoError
  | null, x => (x, none)
  | num d, x =>
    match d.ParseFloat with
    | some f => (set f x, none)
    | none => (x, some (fieldTypeError "number" path "float64"))
  | v, x => (x, some (fieldTypeError v.kind path "float64"))

/-- Store into a `string` field; `null` has no effect. -/
def storeString {α : Type} (path : String) (set : String → α → α) : Json → α → α × Option GoError
  | null, x => (x, none)
  | str s, x => (set s x, none)
  | v, x => (x, some (fieldTypeError v.kind path "string"))

/-- The field an object key addresses: the one whose name is the key, else the first
whose name equals the key under case folding (`foldName` is the decoder's folding of
names, by Unicode simple case folding). -/
def findField {α : Type} (foldName : String → String) (fields : List (Field α)) (key : String) :
    Option (Field α) :=
  match fields.find? (fun f => f.name == key) with
  | some f => some f
  | none => fields.find? (fun f => foldName f.name == foldName key)

/-- Decode the members of an object into a struct, in order: a later member
overwrites an earlier one, unknown keys are skipped, and the first error is the one
reported. -/
def decodeObject {α : Type} (foldName : String → String) (fields : List (Field α)) :
    List (String × Json) → α → α × Option GoError
  | [], x => (x, none)
  | (key, v) :: rest, x =>
    match findField foldName fields key with
    | none => decodeObject foldName fields rest x
    | some f =>
      match f.store v x with
      | (x1, some err) => ((decodeObject foldName fields rest x1).1, some err)
      | (x1, none) => decodeObject foldName fields rest x1

/-- Decode a JSON value into a struct: `null` leaves it as it is, an object is
decoded member by member, anything else is a type error. -/
def decodeStruct {α : Type} (foldName : String → String) (fields : List (Field α))
    (mismatch : String → GoError) : Json → α → α × Option GoError
  | null, x => (x, none)
  | obj members, x => decodeObject foldName fields members x
  | v, x => (x, some (mismatch v.kind))

/-- Method `(*Decoder).Decode` into a struct variable holding `x`. -/
def Decode {α : Type} (dec : Json → α → α × Option GoError) (body : JsonStream) (x : α) :
    α × Option GoError :=
  match body with
  | .error err => (x, some err)
  | .ok v => dec v x

end Json

/-! ## `net/http` and the tracing context -/

/-- The request context: the values it carries, among them the trace context. -/
structure Context where
  values : List (String × String)

/-- An outgoing `http.Request`: `RawQuery` is kept as the list of key and value
pairs that the encoded query stands for. -/
structure Request where
  Method : String
  URL : String
  RawQuery : List (String × String)
  Header : List (String × String)

/-- An `http.Response`. -/
structure Response where
  StatusCode : Int
  Status : String
  Body : JsonStream

/-- Constant `http.StatusOK`. -/
def StatusOK : Int := 200

/-- Constant `http.StatusNotFound`. -/
def StatusNotFound : Int := 404

/-! ## Values of type `interface{}` -/

/-- A value held in an `interface{}`: the dynamic types that reach the use case,
from Go code (`int`) or from `encoding/json` (the others). -/
inductive GoValue where
  | nil
  | bool (b : Bool)
  | int (n : Int)
  | float64 (f : Float64)
  | str (s : String)
  | slice (elems : List GoValue)
  | map (members : List (String × GoValue))

/-! ## Package `servico_a_usecase` -/

namespace ServicoA

/-- Struct `ServicoAUseCase`. -/
structure ServicoAUseCase where
  ZipCode : GoValue

/-- Struct `WeatherData`, with JSON names `temp_c`, `temp_f`, `temp_k`. -/
structure WeatherData where
  TempC : Float64
  TempF : Float64
  TempK : Float64
  deriving DecidableEq, Repr

/-- The zero value of `WeatherData`, which `var weatherData WeatherData` declares. -/
def WeatherData.zero : WeatherData := ⟨.finite false 0, .finite false 0, .finite false 0⟩

/-- The fields of `WeatherData` as `encoding/json` sees them through the struct tags. -/
def WeatherData.fields : List (Json.Field WeatherData) :=
  [ ⟨"temp_c", Json.storeFloat64 "WeatherData.temp_c" fun f x => { x with TempC := f }⟩,
    ⟨"temp_f", Json.storeFloat64 "WeatherData.temp_f" fun f x => { x with TempF := f }⟩,
    ⟨"temp_k", Json.storeFloat64 "WeatherData.temp_k" fun f x => { x with TempK := f }⟩ ]

/-- What the package reaches outside itself, over a world of type `σ`:
the configuration, `net/http`, the trace propagator, and two library functions
that are not interpreted (`fmt.Errorf` on a format known only at run time, and the
name folding of `encoding/json`). -/
structure Env (σ : Type) where
  /-- Value of `viper.GetString("EXTERNAL_CALL_URL")`. -/
  externalCallURL : String
  /-- Function `http.NewRequestWithContext(ctx, method, url, nil)`. -/
  newRequestWithContext : Context → String → String → Except GoError Request
  /-- The header set after `otel.GetTextMapPropagator().Inject(ctx, carrier)`. -/
  inject : Context → List (String × String) → List (String × String)
  /-- Method `http.DefaultClient.Do`. -/
  clientDo : Request → σ → Except GoError Response × σ
  /-- Function `fmt.Errorf(format, err)` for the format `err.Error()`. -/
  errorfDynamic : String → GoError → GoError
  /-- Name folding of `encoding/json`. -/
  foldName : String → String

/-- Function `NewServicoAUseCase`. -/
def NewServicoAUseCase (zipcode : GoValue) : ServicoAUseCase :=
  { ZipCode := zipcode }

/-- Function `isValidZipCode`. -/
def isValidZipCode (zipcode : String) : Bool :=
  let re := zipCodePattern
  re.MatchString zipcode

/-- The statements `var weatherData WeatherData` and
`json.NewDecoder(resp.Body).Decode(&weatherData)`: the decoded struct and the error. -/
def decodeWeatherData (foldName : String → String) (body : JsonStream) :
    WeatherData × Option GoError :=
  Json.Decode
    (Json.decodeStruct foldName WeatherData.fields
      (Json.valueTypeError · "servico_a_usecase.WeatherData"))
    body WeatherData.zero

/-- Function `fetchCurrentWeather`. The deferred `resp.Body.Close()` has no effect
on the result and is left out. -/
def fetchCurrentWeather {σ : Type} (env : Env σ) (ctx : Context) (zipcode : String) (w : σ) :
    (Option WeatherData × Option GoError) × σ :=
  let externalCallURL := env.externalCallURL
  match env.newRequestWithContext ctx "GET" (externalCallURL ++ "/" ++ zipcode) with
  | .error err => ((none, some (env.errorfDynamic err.Error err)), w)
  | .ok req =>
    let req := { req with Header := env.inject ctx req.Header }
    match env.clientDo req w with
    | (.error err, w1) =>
      ((none, some (.wrapError ("failed to fetch weather data: " ++ err.Error) err)), w1)
    | (.ok resp, w1) =>
      if resp.StatusCode ≠ StatusOK then
        if resp.StatusCode = StatusNotFound then
          ((none, some (.errorString "can not find zipcode")), w1)
        else
          ((none, some (.errorString ("failed to fetch weather data: " ++ resp.Status))), w1)
      else
        match decodeWeatherData env.foldName resp.Body with
        | (_, some err) =>
          ((none, some (.wrapError ("failed to decode weather data: " ++ err.Error) err)), w1)
        | (weatherData, none) => ((some weatherData, none), w1)

/-- Method `(*ServicoAUseCase).Execute`. The two `log.Println` calls write to the
log only and are left out. -/
def Execute {σ : Type} (env : Env σ) (uc : ServicoAUseCase) (ctx : Context) (w : σ) :
    (Option WeatherData × Bool × Option GoError) × σ :=
  match uc.ZipCode with
  | .str zipCodeStr =>
    if !isValidZipCode zipCodeStr then
      ((none, false, some (.errorString "invalid zipcode")), w)
    else
      match fetchCurrentWeather env ctx zipCodeStr w with
      | ((_, some err), w1) => ((none, true, some (.errorString err.Error)), w1)
      | ((weatherData, none), w1) => ((weatherData, true, none), w1)
  | _ => ((none, false, some (.errorString "invalid zipcode")), w)

end ServicoA

/-! ## Package `servico_b_usecase` -/

/-- How a call ends: it returns its results, or it panics. -/
inductive Outcome (α : Type) where
  | returned (a : α)
  | panicked (reason : String)

/-- A `map[string]float64` written as a literal: its entries in the order written. -/
abbrev GoMap := List (String × Float64)

/-- Method `url.Values.Add`, on the flattened list of pairs. -/
def Values.Add (q : List (String × String)) (key value : String) : List (String × String) :=
  q ++ [(key, value)]

/-- Method `url.Values.Encode`: the pairs sorted by key, the values of one key kept
in the order they were added. -/
def Values.Encode (q : List (String × String)) : List (String × String) :=
  q.insertionSort fun a b => a.1 ≤ b.1

namespace ServicoB

/-- Struct `WeatherData`, with JSON names `temp_c` and `temp_f`. -/
structure WeatherData where
  TempC : Float64
  TempF : Float64
  deriving DecidableEq, Repr

/-- Struct `ServicoBUseCase`. -/
structure ServicoBUseCase where
  WeatherApiKey : String

/-- The anonymous struct that `fetchLocationImpl` decodes into. -/
structure LocationData where
  Localidade : String

/-- The anonymous struct that `fetchWeatherImpl` decodes into. -/
structure CurrentData where
  Current : WeatherData

/-- The zero value of `WeatherData`. -/
def WeatherData.zero : WeatherData := ⟨.finite false 0, .finite false 0⟩

/-- The fields of `WeatherData` as `encoding/json` sees them through the struct tags. -/
def WeatherData.fields : List (Json.Field WeatherData) :=
  [ ⟨"temp_c", Json.storeFloat64 ".current.temp_c" fun f x => { x with TempC := f }⟩,
    ⟨"temp_f", Json.storeFloat64 ".current.temp_f" fun f x => { x with TempF := f }⟩ ]

/-- The field of the struct of `fetchLocationImpl`. -/
def LocationData.fields : List (Json.Field LocationData) :=
  [ ⟨"localidade", Json.storeString ".localidade" fun s x => { x with Localidade := s }⟩ ]

/-- The field of the struct of `fetchWeatherImpl`: a nested `WeatherData`. -/
def CurrentData.fields (foldName : String → String) : List (Json.Field CurrentData) :=
  [ ⟨"current", fun v x =>
      match Json.decodeStruct foldName WeatherData.fields
          (Json.fieldTypeError · ".current" "servico_b_usecase.WeatherData") v x.Current with
      | (c, err) => ({ x with Current := c }, err)⟩ ]

/-- The package variables `httpGet`, `httpNewRequest` and `httpClientDo`, over a
world of type `σ`, and the name folding of `encoding/json`. -/
structure HttpVars (σ : Type) where
  httpGet : String → σ → Except GoError Response × σ
  httpNewRequest : String → String → σ → Except GoError Request × σ
  httpClientDo : Request → σ → Except GoError Response × σ
  foldName : String → String

/-- The package variables `isValidZipCodeFn`, `fetchLocationFn` and `fetchWeatherFn`,
which the tests replace. -/
structure FnVars (σ : Type) where
  isValidZipCodeFn : String → σ → Bool × σ
  fetchLocationFn : String → σ → (String × Option GoError) × σ
  fetchWeatherFn : String → String → σ → (Option WeatherData × Option GoError) × σ

/-- Function `NewServicoBUseCase`. -/
def NewServicoBUseCase (apiKey : String) : ServicoBUseCase :=
  { WeatherApiKey := apiKey }

/-- Function `isValidZipCodeImpl`. -/
def isValidZipCodeImpl (zipcode : String) : Bool :=
  let re := zipCodePattern
  re.MatchString zipcode

/-- The declaration of `data` in `fetchLocationImpl` and
`json.NewDecoder(resp.Body).Decode(&data)`: the decoded struct and the error. -/
def decodeLocation (foldName : String → String) (body : JsonStream) :
    LocationData × Option GoError :=
  Json.Decode
    (Json.decodeStruct foldName LocationData.fields
      (Json.valueTypeError · "struct \x7b Localidade string \x7d"))
    body (LocationData.mk "")

/-- The declaration of `data` in `fetchWeatherImpl` and
`json.NewDecoder(resp.Body).Decode(&data)`: the decoded struct and the error. -/
def decodeCurrent (foldName : String → String) (body : JsonStream) :
    CurrentData × Option GoError :=
  Json.Decode
    (Json.decodeStruct foldName (CurrentData.fields foldName)
      (Json.valueTypeError · "struct \x7b Current servico_b_usecase.WeatherData \x7d"))
    body (CurrentData.mk WeatherData.zero)

/-- Function `fetchLocationImpl`. -/
def fetchLocationImpl {σ : Type} (h : HttpVars σ) (zipcode : String) (w : σ) :
    (String × Option GoError) × σ :=
  match h.httpGet ("https://viacep.com.br/ws/" ++ zipcode ++ "/json/") w with
  | (.error err, w1) => (("", some err), w1)
  | (.ok resp, w1) =>
    if resp.StatusCode ≠ StatusOK then
      (("", some (.errorString "failed to fetch location")), w1)
    else
      match decodeLocation h.foldName resp.Body with
      | (_, some err) => (("", some err), w1)
      | (data, none) =>
        if data.Localidade = "" then
          (("", some (.errorString "can not find zipcode")), w1)
        else
          ((data.Localidade, none), w1)

/-- Function `fetchWeatherImpl`. -/
def fetchWeatherImpl {σ : Type} (h : HttpVars σ) (location apiKey : String) (w : σ) :
    (Option WeatherData × Option GoError) × σ :=
  let baseURL := "http://api.weatherapi.com/v1/current.json"
  match h.httpNewRequest "GET" baseURL w with
  | (.error err, w1) => ((none, some err), w1)
  | (.ok req, w1) =>
    let q := req.RawQuery
    let q := Values.Add q "key" apiKey
    let q := Values.Add q "q" location
    let req := { req with RawQuery := Values.Encode q }
    match h.httpClientDo req w1 with
    | (.error err, w2) => ((none, some err), w2)
    | (.ok resp, w2) =>
      if resp.StatusCode ≠ StatusOK then
        ((none, some (.errorString "failed to fetch weather data")), w2)
      else
        match decodeCurrent h.foldName resp.Body with
        | (_, some err) => ((none, some err), w2)
        | (data, none) => ((some data.Current, none), w2)

/-- The values with which the package initialises its three function variables. -/
def FnVars.initial {σ : Type} (h : HttpVars σ) : FnVars σ :=
  { isValidZipCodeFn := fun zipcode w => (isValidZipCodeImpl zipcode, w)
    fetchLocationFn := fetchLocationImpl h
    fetchWeatherFn := fetchWeatherImpl h }

/-- Method `(*ServicoBUseCase).Execute`. Reading `weather.TempC` through a nil
pointer panics. -/
def Execute {σ : Type} (fns : FnVars σ) (uc : ServicoBUseCase) (zipcode : String) (w : σ) :
    Outcome (Option GoMap × Option GoError) × σ :=
  match fns.isValidZipCodeFn zipcode w with
  | (false, w1) => (.returned (none, some (.errorString "invalid zipcode")), w1)
  | (true, w1) =>
    match fns.fetchLocationFn zipcode w1 with
    | ((_, some err), w2) => (.returned (none, some (.errorString err.Error)), w2)
    | ((location, none), w2) =>
      match fns.fetchWeatherFn location uc.WeatherApiKey w2 with
      | ((_, some err), w3) =>
        (.returned (none,
          some (.wrapError ("failed to fetch weather data: " ++ err.Error) err)), w3)
      | ((none, none), w3) =>
        (.panicked "invalid memory address or nil pointer dereference", w3)
      | ((some weather, none), w3) =>
        let tempK := weather.TempC + (Decimal.mk false 27315 (-2)).toFloat64
        (.returned (some [("temp_C", weather.TempC), ("temp_F", weather.TempF),
          ("temp_K", tempK)], none), w3)

end ServicoB

/-! ## Sample collaborators

Stand-ins for the network in the manner of the repository's tests: a server that
gives one fixed answer, and replacement functions that return fixed values. The
world they run in is the list of calls made so far, latest last. -/

/-- An ASCII-only stand-in for the name folding of `encoding/json`. -/
def sampleFold (s : String) : String := s.map Char.toUpper

/-- Pipeline A against an upstream that answers every request with `answer`. -/
def ServicoA.Env.answering (answer : Except GoError Response) : ServicoA.Env (List String) :=
  { externalCallURL := "http://upstream"
    newRequestWithContext := fun _ method url => .ok ⟨method, url, [], []⟩
    inject := fun ctx header => header ++ ctx.values
    clientDo := fun req w => (answer, w ++ [req.Method ++ " " ++ req.URL])
    errorfDynamic := fun format _ => .errorString format
    foldName := sampleFold }

/-- Pipeline B against a geocoder and a weather provider that each give one fixed answer. -/
def ServicoB.HttpVars.answering (geocoder weather : Except GoError Response) :
    ServicoB.HttpVars (List String) :=
  { httpGet := fun url w => (geocoder, w ++ ["GET " ++ url])
    httpNewRequest := fun method url w => (.ok ⟨method, url, [], []⟩, w)
    httpClientDo := fun req w => (weather, w ++ [req.Method ++ " " ++ req.URL])
    foldName := sampleFold }

/-- The replacement functions of `TestServicoBUseCase_Execute`, each returning the
values it is given and recording that it was called, and with what. -/
def ServicoB.FnVars.mock (mockValidZipCode : Bool) (mockLocation : String)
    (mockLocErr : Option GoError) (mockWeather : Option ServicoB.WeatherData)
    (mockWeatherErr : Option GoError) : ServicoB.FnVars (List String) :=
  { isValidZipCodeFn := fun zipcode w => (mockValidZipCode, w ++ ["isValidZipCodeFn " ++ zipcode])
    fetchLocationFn := fun zipcode w =>
      ((mockLocation, mockLocErr), w ++ ["fetchLocationFn " ++ zipcode])
    fetchWeatherFn := fun location apiKey w =>
      ((mockWeather, mockWeatherErr), w ++ ["fetchWeatherFn " ++ location ++ " " ++ apiKey]) }

/-- A call to one of the three function variables of package `servico_b_usecase`,
with the arguments it receives. -/
inductive ServicoB.Call where
  | isValidZipCodeFn (zipcode : String)
  | fetchLocationFn (zipcode : String)
  | fetchWeatherFn (location apiKey : String)
  deriving DecidableEq, Repr

/-- Function variables that answer as the three given functions do and record every
call, with its arguments, at the end of the world. -/
def ServicoB.FnVars.recording (valid : String → Bool)
    (locate : String → String × Option GoError)
    (weather : String → String → Option ServicoB.WeatherData × Option GoError) :
    ServicoB.FnVars (List ServicoB.Call) :=
  { isValidZipCodeFn := fun zipcode w => (valid zipcode, w ++ [.isValidZipCodeFn zipcode])
    fetchLocationFn := fun zipcode w => (locate zipcode, w ++ [.fetchLocationFn zipcode])
    fetchWeatherFn := fun location apiKey w =>
      (weather location apiKey, w ++ [.fetchWeatherFn location apiKey]) }

/-! ## Package `handlers` -/

/-- Constant `http.StatusBadRequest`. -/
def StatusBadRequest : Int := 400

/-- Constant `http.StatusUnprocessableEntity`. -/
def StatusUnprocessableEntity : Int := 422

/-- Constant `http.StatusInternalServerError`. -/
def StatusInternalServerError : Int := 500

/-- Is the value neither an infinity nor a NaN? -/
def Float64.isFinite : Float64 → Bool
  | .finite _ _ => true
  | _ => false

mutual

/-- The Go value that `encoding/json` stores in an `interface{}` for a JSON value,
and the first error raised on the way: a numeral out of the range of `float64`
leaves nil in its place and raises a type error. -/
def Json.toInterface : Json → GoValue × Option GoError
  | .null => (.nil, none)
  | .bool b => (.bool b, none)
  | .num d =>
    match d.ParseFloat with
    | some f => (.float64 f, none)
    | none => (.nil, some (Json.valueTypeError "number" "float64"))
  | .str s => (.str s, none)
  | .arr elems =>
    match Json.toInterfaceList elems with
    | (vs, err) => (.slice vs, err)
  | .obj members =>
    match Json.toInterfaceMembers members with
    | (vs, err) => (.map vs, err)

/-- The elements of a JSON array as Go values, and the first error raised. -/
def Json.toInterfaceList : List Json → List GoValue × Option GoError
  | [] => ([], none)
  | v :: rest =>
    match Json.toInterface v, Json.toInterfaceList rest with
    | (x, err1), (xs, err2) => (x :: xs, err1 <|> err2)

/-- The members of a JSON object as Go values, in the order read, and the first
error raised. -/
def Json.toInterfaceMembers : List (String × Json) → List (String × GoValue) × Option GoError
  | [] => ([], none)
  | (key, v) :: rest =>
    match Json.toInterface v, Json.toInterfaceMembers rest with
    | (x, err1), (xs, err2) => ((key, x) :: xs, err1 <|> err2)

end

/-- Method `http.Header.Set`, for a key in canonical form. -/
def Header.Set (h : List (String × String)) (key value : String) : List (String × String) :=
  (h.filter fun p => p.1 != key) ++ [(key, value)]

/-- Method `http.Header.Get`, for a key in canonical form. -/
def Header.Get (h : List (String × String)) (key : String) : String :=
  match h.find? fun p => p.1 == key with
  | some p => p.2
  | none => ""

/-- The JSON text that `json.Encoder.Encode` produces, kept as the value it denotes:
`null`, or an object of numbers with its members in the order written. -/
inductive JsonText where
  | null
  | object (members : List (String × Float64))
  deriving DecidableEq, Repr

/-- One write to the body of a response: a text, or a JSON text followed by a newline. -/
inductive Written where
  | text (s : String)
  | json (v : JsonText)
  deriving DecidableEq, Repr

/-- An `http.ResponseWriter`: the header map, the status code passed to the first
`WriteHeader` (`none` while the header has not been written), and the writes to the
body, in order. -/
structure ResponseWriter where
  header : List (String × String)
  code : Option Int
  body : List Written
  deriving DecidableEq, Repr

namespace ResponseWriter

/-- A writer as the server hands it to a handler. -/
def fresh : ResponseWriter := ⟨[], none, []⟩

/-- Method `WriteHeader`: only the first call sets the status. -/
def WriteHeader (rw : ResponseWriter) (statusCode : Int) : ResponseWriter :=
  match rw.code with
  | some _ => rw
  | none => { rw with code := some statusCode }

/-- Method `Write`: writes the header with status 200 if it has not been written. -/
def Write (rw : ResponseWriter) (data : Written) : ResponseWriter :=
  let rw := rw.WriteHeader StatusOK
  { rw with body := rw.body ++ [data] }

/-- The status code of the response once the handler has returned: the one written,
or 200 when none was. -/
def StatusCode (rw : ResponseWriter) : Int :=
  rw.code.getD StatusOK

end ResponseWriter

/-- Function `http.Error`: the two header fields it sets in every Go release, the
status, and the message followed by a newline. -/
def httpError (rw : ResponseWriter) (error : String) (code : Int) : ResponseWriter :=
  let h := Header.Set rw.header "Content-Type" "text/plain; charset=utf-8"
  let h := Header.Set h "X-Content-Type-Options" "nosniff"
  let rw := { rw with header := h }
  let rw := rw.WriteHeader code
  rw.Write (.text (error ++ "\n"))

/-- The statement `json.NewEncoder(w).Encode(v)`, its error dropped as the handlers
drop it: `text` is the JSON text of `v`, or `none` when `v` cannot be encoded, in
which case nothing is written. -/
def encodeTo (rw : ResponseWriter) (text : Option JsonText) : ResponseWriter :=
  match text with
  | some t => rw.Write (.json t)
  | none => rw

/-- The request a handler receives: its body as the JSON decoder reads it, its
header, its context, and the URL parameters of the `chi` route context. -/
structure IncomingRequest where
  Body : JsonStream
  Header : List (String × String)
  Context : Context
  URLParams : List (String × String)

/-- Function `chi.URLParam`: the value of the last parameter of that name, or the
empty string. -/
def URLParam (r : IncomingRequest) (key : String) : String :=
  match r.URLParams.reverse.find? fun p => p.1 == key with
  | some p => p.2
  | none => ""

namespace Handlers

/-- Struct `WeatherRequest`, with JSON name `cep`. -/
structure WeatherRequest where
  ZipCode : GoValue

/-- The field of `WeatherRequest` as `encoding/json` sees it: an `interface{}`, which
takes any JSON value; `null` sets it to nil. -/
def WeatherRequest.fields : List (Json.Field WeatherRequest) :=
  [ ⟨"cep", fun v x =>
      match v with
      | .num d =>
        match d.ParseFloat with
        | some f => ({ x with ZipCode := .float64 f }, none)
        | none => (x, some (Json.fieldTypeError "number" "WeatherRequest.cep" "float64"))
      | v =>
        match v.toInterface with
        | (g, err) => ({ x with ZipCode := g }, err)⟩ ]

/-- The statements `var request WeatherRequest` and
`json.NewDecoder(r.Body).Decode(&request)`: the decoded struct and the error. -/
def decodeWeatherRequest (foldName : String → String) (body : JsonStream) :
    WeatherRequest × Option GoError :=
  Json.Decode
    (Json.decodeStruct foldName WeatherRequest.fields
      (Json.valueTypeError · "handlers.WeatherRequest"))
    body (WeatherRequest.mk .nil)

/-- The JSON text of a `*servico_a_usecase.WeatherData`: `null` for nil, else the
three fields in the order of the struct; none when a value is not finite. -/
def marshalWeatherData : Option ServicoA.WeatherData → Option JsonText
  | none => some .null
  | some d =>
    if d.TempC.isFinite && d.TempF.isFinite && d.TempK.isFinite then
      some (.object [("temp_c", d.TempC), ("temp_f", d.TempF), ("temp_k", d.TempK)])
    else none

/-- The JSON text of a `map[string]float64`: `null` for nil, else the entries sorted
by key; none when a value is not finite. -/
def marshalMap : Option GoMap → Option JsonText
  | none => some .null
  | some m =>
    if m.all fun p => p.2.isFinite then
      some (.object (m.insertionSort fun a b => a.1 ≤ b.1))
    else none

/-- Struct `WeatherHandler`: the `Execute` method of the value held in
`ServicoBUseCase`, and `tracer.Start`, of which only the context it returns is kept. -/
structure WeatherHandler (σ : Type) where
  ServicoBUseCase : String → σ → Outcome (Option GoMap × Option GoError) × σ
  tracerStart : Context → String → Context

/-- What `ProcessServicoA` reaches outside the handler: the environment of Pipeline A,
`otel.GetTextMapPropagator().Extract` and `viper.GetString("REQUEST_NAME_OTEL")`. -/
structure Env (σ : Type) where
  servicoA : ServicoA.Env σ
  extract : Context → List (String × String) → Context
  requestNameOtel : String

/-- Function `NewWeatherHandler`, given the value of `viper.GetString("WEATHER_API_KEY")`
and the function variables of package `servico_b_usecase`. -/
def NewWeatherHandler {σ : Type} (apiKey : String) (fns : ServicoB.FnVars σ)
    (tracerStart : Context → String → Context) : WeatherHandler σ :=
  { ServicoBUseCase := ServicoB.Execute fns (ServicoB.NewServicoBUseCase apiKey)
    tracerStart := tracerStart }

/-- Method `(*WeatherHandler).ProcessServicoA`. The deferred `span.End()` does not
touch the response and is left out. -/
def ProcessServicoA {σ : Type} (h : WeatherHandler σ) (env : Env σ) (rw : ResponseWriter)
    (r : IncomingRequest) (w : σ) : ResponseWriter × σ :=
  match decodeWeatherRequest env.servicoA.foldName r.Body with
  | (_, some _) => (httpError rw "Invalid request body" StatusBadRequest, w)
  | (request, none) =>
    let servicoAUC := ServicoA.NewServicoAUseCase request.ZipCode
    let carrier := r.Header
    let ctx := r.Context
    let ctx := env.extract ctx carrier
    let ctx := h.tracerStart ctx env.requestNameOtel
    match ServicoA.Execute env.servicoA servicoAUC ctx w with
    | ((_, isValid, some err), w1) =>
      if !isValid then
        (httpError rw err.Error StatusUnprocessableEntity, w1)
      else if err.Error = "can not find zipcode" then
        (httpError rw err.Error StatusNotFound, w1)
      else
        (httpError rw err.Error StatusBadRequest, w1)
    | ((response, _, none), w1) =>
      let rw := { rw with header := Header.Set rw.header "Content-Type" "application/json" }
      (encodeTo rw (marshalWeatherData response), w1)

/-- Method `(*WeatherHandler).ProcessServicoB`. A panic of the use case passes
through the handler. -/
def ProcessServicoB {σ : Type} (h : WeatherHandler σ) (rw : ResponseWriter)
    (r : IncomingRequest) (w : σ) : Outcome ResponseWriter × σ :=
  let zipcode := URLParam r "zipcode"
  match h.ServicoBUseCase zipcode w with
  | (.panicked reason, w1) => (.panicked reason, w1)
  | (.returned (_, some err), w1) =>
    if err.Error = "can not find zipcode" then
      (.returned (httpError rw err.Error StatusNotFound), w1)
    else
      (.returned (httpError rw err.Error StatusInternalServerError), w1)
  | (.returned (response, none), w1) =>
    let rw := { rw with header := Header.Set rw.header "Content-Type" "application/json" }
    (.returned (encodeTo rw (marshalMap response)), w1)

end Handlers

/-- Handlers' environment around Pipeline A against an upstream that answers every
request with `answer`; the trace context is taken from the request header. -/
def Handlers.Env.answering (answer : Except GoError Response) : Handlers.Env (List String) :=
  { servicoA := ServicoA.Env.answering answer
    extract := fun ctx carrier => ⟨ctx.values ++ carrier⟩
    requestNameOtel := "servico-a" }

/-- The replacement use case of the handler tests: it returns what `ExecuteFn`
returns and records the zipcode it was called with. -/
def Handlers.WeatherHandler.mock (ExecuteFn : String → Option GoMap × Option GoError) :
    Handlers.WeatherHandler (List String) :=
  { ServicoBUseCase := fun zipcode w => (.returned (ExecuteFn zipcode), w ++ [zipcode])
    tracerStart := fun ctx _ => ctx }

/-! # Properties -/

namespace Regexp

theorem mem_ends_charClass (text : List Char) (ranges : List (Char × Char)) (pos e : Nat) :
    e ∈ ends text (charClass ranges) pos ↔
      e = pos + 1 ∧ ∃ c, text[pos]? = some c ∧ inClass ranges c = true := by
  unfold ends
  cases h : text[pos]? with
  | none => simp
  | some c =>
    by_cases hc : inClass ranges c = true
    · simp [hc]
    · simp [hc]

theorem mem_iter_charClass (text : List Char) (ranges : List (Char × Char)) (n pos e : Nat) :
    e ∈ iter (ends text (charClass ranges)) n pos ↔
      e = pos + n ∧ ∀ i, i < n → ∃ c, text[pos + i]? = some c ∧ inClass ranges c = true := by
  induction n generalizing pos with
  | zero => simp [iter]
  | succ n ih =>
    simp only [iter, List.mem_flatMap, mem_ends_charClass, ih]
    constructor
    · rintro ⟨p, ⟨rfl, hc⟩, rfl, hrest⟩
      refine ⟨by omega, ?_⟩
      intro i hi
      cases i with
      | zero => simpa using hc
      | succ j =>
        have := hrest j (by omega)
        rwa [show pos + 1 + j = pos + (j + 1) by omega] at this
    · rintro ⟨rfl, hall⟩
      refine ⟨pos + 1, ⟨rfl, by simpa using hall 0 (by omega)⟩, by omega, ?_⟩
      intro i hi
      have := hall (i + 1) (by omega)
      rwa [show pos + (i + 1) = pos + 1 + i by omega] at this

theorem inClass_digit (c : Char) : inClass [('0', '9')] c = true ↔ '0' ≤ c ∧ c ≤ '9' := by
  simp [inClass]

theorem mem_ends_beginText (text : List Char) (pos e : Nat) :
    e ∈ ends text beginText pos ↔ e = pos ∧ pos = 0 := by
  unfold ends
  by_cases h : pos = 0 <;> simp [h]

theorem mem_ends_endText (text : List Char) (pos e : Nat) :
    e ∈ ends text endText pos ↔ e = pos ∧ pos = text.length := by
  unfold ends
  by_cases h : pos = text.length <;> simp [h]

theorem mem_ends_concat (text : List Char) (a b : Regexp) (pos e : Nat) :
    e ∈ ends text (concat a b) pos ↔ ∃ p, p ∈ ends text a pos ∧ e ∈ ends text b p := by
  rw [ends, List.mem_flatMap]

theorem ends_rep (text : List Char) (n : Nat) (sub : Regexp) (pos : Nat) :
    ends text (rep n sub) pos = iter (ends text sub) n pos := by
  rw [ends]

theorem mem_ends_zipCodePattern (text : List Char) (start e : Nat) :
    e ∈ ends text zipCodePattern start ↔
      start = 0 ∧ e = 8 ∧ text.length = 8 ∧
        ∀ i, i < 8 → ∃ c, text[i]? = some c ∧ ('0' ≤ c ∧ c ≤ '9') := by
  simp only [zipCodePattern, perlDigit, mem_ends_concat, mem_ends_beginText, ends_rep,
    mem_iter_charClass, mem_ends_endText, inClass_digit]
  constructor
  · rintro ⟨p, ⟨rfl, rfl⟩, q, ⟨rfl, hall⟩, rfl, hlen⟩
    refine ⟨rfl, by omega, by omega, ?_⟩
    intro i hi
    simpa using hall i hi
  · rintro ⟨rfl, rfl, hlen, hall⟩
    refine ⟨0, ⟨rfl, rfl⟩, 8, ⟨by omega, ?_⟩, rfl, by omega⟩
    intro i hi
    simpa using hall i hi

theorem matchString_zipCodePattern (s : String) :
    zipCodePattern.MatchString s = true ↔
      s.length = 8 ∧ ∀ c ∈ s.data, '0' ≤ c ∧ c ≤ '9' := by
  have hlen : s.length = s.data.length := rfl
  simp only [MatchString, List.any_eq_true, List.mem_range, Bool.not_eq_true',
    List.isEmpty_eq_false]
  constructor
  · rintro ⟨start, _, hne⟩
    obtain ⟨e, he⟩ := List.exists_mem_of_ne_nil _ hne
    rw [mem_ends_zipCodePattern] at he
    obtain ⟨_, _, h8, hall⟩ := he
    refine ⟨by omega, ?_⟩
    intro c hc
    obtain ⟨i, hi, rfl⟩ := List.getElem_of_mem hc
    obtain ⟨d, hd, hdig⟩ := hall i (by omega)
    rw [List.getElem?_eq_getElem hi] at hd
    cases hd
    exact hdig
  · rintro ⟨h8, hall⟩
    refine ⟨0, by omega, ?_⟩
    have hmem : 8 ∈ ends s.data zipCodePattern 0 := by
      rw [mem_ends_zipCodePattern]
      refine ⟨rfl, rfl, by omega, ?_⟩
      intro i hi
      have hi2 : i < s.data.length := by omega
      exact ⟨s.data[i], List.getElem?_eq_getElem hi2, hall _ (List.getElem_mem hi2)⟩
    exact List.ne_nil_of_mem hmem

end Regexp

namespace ServicoA

/-- C1. `isValidZipCode` accepts a string exactly when it consists of 8 characters,
each an ASCII decimal digit `0`..`9`. In particular it rejects the empty string,
strings of 7 and of 9 digits, a string with a letter, a string with an extra
leading or trailing character (a trailing newline included) and a string of eight
Arabic-Indic digits. -/
theorem isValidZipCode_iff_eight_ascii_digits :
    (∀ s : String, isValidZipCode s = true ↔
      (s.length = 8 ∧ ∀ c ∈ s.data, '0' ≤ c ∧ c ≤ '9')) ∧
    isValidZipCode "12345678" = true ∧
    isValidZipCode "" = false ∧
    isValidZipCode "1234567" = false ∧
    isValidZipCode "123456789" = false ∧
    isValidZipCode "1234567A" = false ∧
    isValidZipCode " 12345678" = false ∧
    isValidZipCode "12345678 " = false ∧
    isValidZipCode "12345678\n" = false ∧
    isValidZipCode "١٢٣٤٥٦٧٨" = false := by
  refine ⟨fun s => Regexp.matchString_zipCodePattern s, ?_, ?_, ?_, ?_, ?_, ?_, ?_, ?_, ?_⟩ <;>
    decide

end ServicoA

/-- C2. The validators of the two packages agree on every string. -/
theorem validators_agree (s : String) :
    ServicoA.isValidZipCode s = ServicoB.isValidZipCodeImpl s := rfl

namespace ServicoA

/-- C3. When `ZipCode` does not hold a string that passes `isValidZipCode` (it holds
a value of another type, nil, or a string of the wrong format), `Execute` returns nil
data, the flag `false` and an error whose message is exactly `invalid zipcode`, and
makes no upstream call. -/
theorem Execute_invalid_input {σ : Type} (env : Env σ) (uc : ServicoAUseCase) (ctx : Context)
    (w : σ) (h : ∀ s, uc.ZipCode = .str s → isValidZipCode s = false) :
    ∃ err, Execute env uc ctx w = ((none, false, some err), w) ∧
      err.Error = "invalid zipcode" := by
  refine ⟨.errorString "invalid zipcode", ?_, rfl⟩
  unfold Execute
  split
  · rename_i s hs
    simp [h s hs]
  · rfl

/-- Witness for C3: an integer, nil, and the 7-digit string `1234567`. -/
theorem Execute_invalid_input_witness :
    (∀ s, (NewServicoAUseCase (.int 12345678)).ZipCode = .str s → isValidZipCode s = false) ∧
    (∃ err, Execute (Env.answering (.error (.errorString "unreachable")))
        (NewServicoAUseCase (.int 12345678)) ⟨[]⟩ [] = ((none, false, some err), []) ∧
      err.Error = "invalid zipcode") ∧
    (∃ err, Execute (Env.answering (.error (.errorString "unreachable")))
        (NewServicoAUseCase .nil) ⟨[]⟩ [] = ((none, false, some err), []) ∧
      err.Error = "invalid zipcode") ∧
    (∃ err, Execute (Env.answering (.error (.errorString "unreachable")))
        (NewServicoAUseCase (.str "1234567")) ⟨[]⟩ [] = ((none, false, some err), []) ∧
      err.Error = "invalid zipcode") :=
  ⟨(fun s hs => by cases hs),
   Execute_invalid_input _ _ _ _ (fun s hs => by cases hs),
   Execute_invalid_input _ _ _ _ (fun s hs => by cases hs),
   Execute_invalid_input _ _ _ _ (fun s hs => by cases hs; decide)⟩

/-- C4. In `fetchCurrentWeather`, when the upstream answers with a status other
than 200, the data is nil and the error message is exactly `can not find zipcode`
for status 404, and `failed to fetch weather data: ` followed by the status text of
the response for every other status. -/
theorem fetchCurrentWeather_non_200 {σ : Type} (env : Env σ) (ctx : Context) (zipcode : String)
    (w w1 : σ) (req : Request) (resp : Response)
    (hreq : env.newRequestWithContext ctx "GET" (env.externalCallURL ++ "/" ++ zipcode) = .ok req)
    (hdo : env.clientDo { req with Header := env.inject ctx req.Header } w = (.ok resp, w1))
    (hstatus : resp.StatusCode ≠ 200) :
    ∃ err, fetchCurrentWeather env ctx zipcode w = ((none, some err), w1) ∧
      err.Error = if resp.StatusCode = 404 then "can not find zipcode"
        else "failed to fetch weather data: " ++ resp.Status := by
  unfold fetchCurrentWeather
  simp only [hreq, hdo]
  have h1 : resp.StatusCode ≠ StatusOK := hstatus
  by_cases h404 : resp.StatusCode = 404
  · have h2 : resp.StatusCode = StatusNotFound := h404
    refine ⟨.errorString "can not find zipcode", ?_, ?_⟩
    · rw [if_pos h1, if_pos h2]
    · rw [if_pos h404]; rfl
  · have h2 : resp.StatusCode ≠ StatusNotFound := h404
    refine ⟨.errorString ("failed to fetch weather data: " ++ resp.Status), ?_, ?_⟩
    · rw [if_pos h1, if_neg h2]
    · rw [if_neg h404]; rfl

/-- Witness for C4: the upstream answers 404, and the upstream answers 500. -/
theorem fetchCurrentWeather_non_200_witness :
    (∃ err, fetchCurrentWeather (Env.answering (.ok ⟨404, "404 Not Found", .error (.errorString "EOF")⟩))
        ⟨[]⟩ "99999999" [] = ((none, some err), ["GET http://upstream/99999999"]) ∧
      err.Error = "can not find zipcode") ∧
    (∃ err, fetchCurrentWeather
        (Env.answering (.ok ⟨500, "500 Internal Server Error", .error (.errorString "EOF")⟩))
        ⟨[]⟩ "88888888" [] = ((none, some err), ["GET http://upstream/88888888"]) ∧
      err.Error = "failed to fetch weather data: 500 Internal Server Error") :=
  ⟨fetchCurrentWeather_non_200 (Env.answering (.ok ⟨404, "404 Not Found", .error (.errorString "EOF")⟩))
      ⟨[]⟩ "99999999" [] _ _ _ rfl rfl (by decide),
   fetchCurrentWeather_non_200
      (Env.answering (.ok ⟨500, "500 Internal Server Error", .error (.errorString "EOF")⟩))
      ⟨[]⟩ "88888888" [] _ _ _ rfl rfl (by decide)⟩

end ServicoA
theorem perm_three_cases {α : Type} [DecidableEq α] (a b c : α) (l : List α)
    (h : l.Perm [a, b, c]) :
    l = [a, b, c] ∨ l = [b, a, c] ∨ l = [b, c, a] ∨ l = [a, c, b] ∨ l = [c, a, b] ∨
      l = [c, b, a] := by
  have := (List.mem_permutations'.2 h)
  simpa [List.permutations', List.permutations'Aux] using this

theorem exists_three_of_map_fst {α β : Type} (ms : List (α × β)) (a b c : α)
    (h : ms.map Prod.fst = [a, b, c]) :
    ∃ u v w, ms = [(a, u), (b, v), (c, w)] := by
  match ms, h with
  | [(a1, u), (b1, v), (c1, w)], h =>
    simp only [List.map_cons, List.map_nil, List.cons.injEq, and_true] at h
    obtain ⟨rfl, rfl, rfl⟩ := h
    exact ⟨u, v, w, rfl⟩

theorem Json.decodeObject_filter {α : Type} (foldName : String → String)
    (fields : List (Json.Field α)) (ms : List (String × Json)) (x : α) :
    Json.decodeObject foldName fields
        (ms.filter fun m => (Json.findField foldName fields m.1).isSome) x =
      Json.decodeObject foldName fields ms x := by
  induction ms generalizing x with
  | nil => rfl
  | cons m rest ih =>
    obtain ⟨key, v⟩ := m
    cases hfind : Json.findField foldName fields key with
    | none =>
      simp only [List.filter_cons, hfind, Option.isSome_none, Bool.false_eq_true, if_false,
        Json.decodeObject]
      exact ih x
    | some f =>
      simp only [List.filter_cons, hfind, Option.isSome_some, if_true]
      cases v <;> simp only [Json.decodeObject, hfind, ih]

theorem lookup_filter_key {β : Type} (q : String → Bool) (k : String) (hq : q k = true)
    (ms : List (String × β)) :
    (ms.filter fun m => q m.1).lookup k = ms.lookup k := by
  induction ms with
  | nil => rfl
  | cons m rest ih =>
    obtain ⟨k1, v⟩ := m
    by_cases hk : k = k1
    · subst hk
      simp [List.filter_cons, hq, List.lookup]
    · have hne : (k == k1) = false := by simpa using hk
      by_cases hq1 : q k1 = true
      · simp [List.filter_cons, hq1, List.lookup, hne, ih]
      · simp [List.filter_cons, hq1, List.lookup, hne, ih]

namespace ServicoA

theorem decodeObject_weatherData_exact (foldName : String → String) (ms : List (String × Json))
    (c f k : Decimal) (x y z : Float64)
    (hkeys : (ms.map Prod.fst).Perm ["temp_c", "temp_f", "temp_k"])
    (hc : ms.lookup "temp_c" = some (.num c)) (hf : ms.lookup "temp_f" = some (.num f))
    (hk : ms.lookup "temp_k" = some (.num k))
    (hx : c.ParseFloat = some x) (hy : f.ParseFloat = some y) (hz : k.ParseFloat = some z) :
    Json.decodeObject foldName WeatherData.fields ms WeatherData.zero = (⟨x, y, z⟩, none) := by
  rcases perm_three_cases _ _ _ _ hkeys with h | h | h | h | h | h <;>
  · obtain ⟨u, v, w, rfl⟩ := exists_three_of_map_fst _ _ _ _ h
    simp [List.lookup] at hc hf hk
    subst hc hf hk
    simp [Json.decodeObject, Json.findField, WeatherData.fields, Json.storeFloat64, hx, hy, hz,
      WeatherData.zero]

theorem decodeObject_weatherData (foldName : String → String) (ms : List (String × Json))
    (c f k : Decimal) (x y z : Float64)
    (hkeys : ((ms.filter fun m =>
        (Json.findField foldName WeatherData.fields m.1).isSome).map Prod.fst).Perm
      ["temp_c", "temp_f", "temp_k"])
    (hc : ms.lookup "temp_c" = some (.num c)) (hf : ms.lookup "temp_f" = some (.num f))
    (hk : ms.lookup "temp_k" = some (.num k))
    (hx : c.ParseFloat = some x) (hy : f.ParseFloat = some y) (hz : k.ParseFloat = some z) :
    Json.decodeObject foldName WeatherData.fields ms WeatherData.zero = (⟨x, y, z⟩, none) := by
  rw [← Json.decodeObject_filter]
  refine decodeObject_weatherData_exact foldName _ c f k x y z hkeys ?_ ?_ ?_ hx hy hz
  · rw [lookup_filter_key (fun key => (Json.findField foldName WeatherData.fields key).isSome)
      "temp_c" rfl]
    exact hc
  · rw [lookup_filter_key (fun key => (Json.findField foldName WeatherData.fields key).isSome)
      "temp_f" rfl]
    exact hf
  · rw [lookup_filter_key (fun key => (Json.findField foldName WeatherData.fields key).isSome)
      "temp_k" rfl]
    exact hk

theorem isValidZipCode_eq_true_iff (s : String) :
    isValidZipCode s = true ↔ (s.length = 8 ∧ ∀ c ∈ s.data, '0' ≤ c ∧ c ≤ '9') :=
  Regexp.matchString_zipCodePattern s

/-- C5. For a zipcode string of 8 ASCII digits, when the upstream answers with
status 200 and a JSON object in which the members that the decoder matches to a
field are `temp_c`, `temp_f` and `temp_k`, once each and in any order among members
it skips, holding numerals in the range of `float64`, `Execute` returns a nil error,
the flag `true`, and a `WeatherData` whose `TempC`, `TempF` and `TempK` are the
`float64` values of those three numerals: `TempK` is the value sent, whatever
`TempC` is. -/
theorem Execute_success_copies_upstream {σ : Type} (env : Env σ) (uc : ServicoAUseCase)
    (ctx : Context) (w w1 : σ) (s : String) (req : Request) (resp : Response)
    (ms : List (String × Json)) (c f k : Decimal) (x y z : Float64)
    (hzip : uc.ZipCode = .str s)
    (hvalid : s.length = 8 ∧ ∀ ch ∈ s.data, '0' ≤ ch ∧ ch ≤ '9')
    (hreq : env.newRequestWithContext ctx "GET" (env.externalCallURL ++ "/" ++ s) = .ok req)
    (hdo : env.clientDo { req with Header := env.inject ctx req.Header } w = (.ok resp, w1))
    (hstatus : resp.StatusCode = 200)
    (hbody : resp.Body = .ok (.obj ms))
    (hkeys : ((ms.filter fun m =>
        (Json.findField env.foldName WeatherData.fields m.1).isSome).map Prod.fst).Perm
      ["temp_c", "temp_f", "temp_k"])
    (hc : ms.lookup "temp_c" = some (.num c)) (hf : ms.lookup "temp_f" = some (.num f))
    (hk : ms.lookup "temp_k" = some (.num k))
    (hx : c.ParseFloat = some x) (hy : f.ParseFloat = some y) (hz : k.ParseFloat = some z) :
    Execute env uc ctx w = ((some ⟨x, y, z⟩, true, none), w1) := by
  have hv : isValidZipCode s = true := (isValidZipCode_eq_true_iff s).2 hvalid
  have hdec : decodeWeatherData env.foldName resp.Body = (⟨x, y, z⟩, none) := by
    rw [hbody]
    exact decodeObject_weatherData env.foldName ms c f k x y z hkeys hc hf hk hx hy hz
  have hfetch : fetchCurrentWeather env ctx s w = ((some ⟨x, y, z⟩, none), w1) := by
    unfold fetchCurrentWeather
    simp only [hreq, hdo]
    rw [if_neg (by simp [hstatus, StatusOK]), hdec]
  unfold Execute
  rw [hzip]
  simp only [hv, hfetch]
  rfl

/-- Witness for C5: the exchange of `TestServicoAUseCase_Execute`, and one in which
the upstream sends a `temp_k` unrelated to `temp_c`, the members in another order
and with a member that the decoder skips. -/
theorem Execute_success_copies_upstream_witness :
    Execute
        (Env.answering (.ok ⟨200, "200 OK", .ok (.obj [("temp_c", .num ⟨false, 255, -1⟩),
          ("temp_f", .num ⟨false, 779, -1⟩), ("temp_k", .num ⟨false, 29865, -2⟩)])⟩))
        (NewServicoAUseCase (.str "12345678")) ⟨[]⟩ []
      = ((some ⟨(Decimal.mk false 255 (-1)).toFloat64, (Decimal.mk false 779 (-1)).toFloat64,
            (Decimal.mk false 29865 (-2)).toFloat64⟩, true, none),
          ["GET http://upstream/12345678"]) ∧
    Execute
        (Env.answering (.ok ⟨200, "200 OK", .ok (.obj [("temp_k", .num ⟨false, 7, 0⟩),
          ("city", .str "São Paulo"), ("temp_c", .num ⟨false, 255, -1⟩),
          ("temp_f", .num ⟨false, 779, -1⟩)])⟩))
        (NewServicoAUseCase (.str "12345678")) ⟨[]⟩ []
      = ((some ⟨(Decimal.mk false 255 (-1)).toFloat64, (Decimal.mk false 779 (-1)).toFloat64,
            (Decimal.mk false 7 0).toFloat64⟩, true, none),
          ["GET http://upstream/12345678"]) :=
  ⟨Execute_success_copies_upstream _ _ _ _ _ "12345678" _ _ _ _ _ _ _ _ _ rfl (by decide) rfl rfl
      rfl rfl (by decide) rfl rfl rfl (by decide!) (by decide!) (by decide!),
   Execute_success_copies_upstream _ _ _ _ _ "12345678" _ _ _ _ _ _ _ _ _ rfl (by decide) rfl rfl
      rfl rfl (by decide!) rfl rfl rfl (by decide!) (by decide!) (by decide!)⟩

/-- C6. In `fetchCurrentWeather`, when the upstream answers with status 200 and
decoding the body reports an error (the body is not JSON, or is JSON that does not
fit `WeatherData`), the data is nil and the error message is
`failed to decode weather data: ` followed by the decoder's message, so it begins
with `failed to decode weather data`. -/
theorem fetchCurrentWeather_decode_failure {σ : Type} (env : Env σ) (ctx : Context)
    (zipcode : String) (w w1 : σ) (req : Request) (resp : Response) (e : GoError)
    (hreq : env.newRequestWithContext ctx "GET" (env.externalCallURL ++ "/" ++ zipcode) = .ok req)
    (hdo : env.clientDo { req with Header := env.inject ctx req.Header } w = (.ok resp, w1))
    (hstatus : resp.StatusCode = 200)
    (hdec : (decodeWeatherData env.foldName resp.Body).2 = some e) :
    ∃ err, fetchCurrentWeather env ctx zipcode w = ((none, some err), w1) ∧
      err.Error = "failed to decode weather data: " ++ e.Error ∧
      ∃ rest, err.Error = "failed to decode weather data" ++ rest := by
  refine ⟨.wrapError ("failed to decode weather data: " ++ e.Error) e, ?_, rfl,
    ": " ++ e.Error, ?_⟩
  · unfold fetchCurrentWeather
    simp only [hreq, hdo]
    rw [if_neg (by simp [hstatus, StatusOK])]
    cases hd : decodeWeatherData env.foldName resp.Body with
    | mk x oe =>
      rw [hd] at hdec
      cases hdec
      rfl
  · show "failed to decode weather data: " ++ e.Error = _
    rw [← String.append_assoc]
    rfl

/-- Every body that is not JSON is one on which decoding reports the scanner's error. -/
theorem decodeWeatherData_of_syntax_error (foldName : String → String) (e : GoError) :
    (decodeWeatherData foldName (.error e)).2 = some e := rfl

/-- Witness for C6: the body `{malformed json}` of `TestFetchCurrentWeather`, on
which the scanner reports a syntax error. -/
theorem fetchCurrentWeather_decode_failure_witness :
    ∃ err, fetchCurrentWeather
        (Env.answering (.ok ⟨200, "200 OK", .error (.errorString
          "invalid character 'm' looking for beginning of object key string")⟩))
        ⟨[]⟩ "malformed" [] = ((none, some err), ["GET http://upstream/malformed"]) ∧
      err.Error = "failed to decode weather data: " ++ (GoError.errorString
          "invalid character 'm' looking for beginning of object key string").Error ∧
      ∃ rest, err.Error = "failed to decode weather data" ++ rest :=
  fetchCurrentWeather_decode_failure _ ⟨[]⟩ "malformed" [] _ _ _ _ rfl rfl rfl rfl

/-- C7. The flag that `Execute` returns is `false` exactly when `ZipCode` does not
hold a string that passes `isValidZipCode`. When it holds such a string, the flag is
`true` whatever `fetchCurrentWeather` returns; if that is an error, `Execute` returns
nil data and an error with the same message, and otherwise it returns the data of
`fetchCurrentWeather` and a nil error. -/
theorem Execute_flag_and_upstream_errors {σ : Type} (env : Env σ) (uc : ServicoAUseCase)
    (ctx : Context) (w : σ) :
    ((Execute env uc ctx w).1.2.1 = false ↔
      ¬ ∃ s, uc.ZipCode = .str s ∧ isValidZipCode s = true) ∧
    ∀ s, uc.ZipCode = .str s → isValidZipCode s = true →
      (Execute env uc ctx w).1.2.1 = true ∧
      (Execute env uc ctx w).2 = (fetchCurrentWeather env ctx s w).2 ∧
      (∀ e, (fetchCurrentWeather env ctx s w).1.2 = some e →
        ∃ err, (Execute env uc ctx w).1 = (none, true, some err) ∧ err.Error = e.Error) ∧
      ((fetchCurrentWeather env ctx s w).1.2 = none →
        (Execute env uc ctx w).1 = ((fetchCurrentWeather env ctx s w).1.1, true, none)) := by
  have key : ∀ s, uc.ZipCode = .str s → isValidZipCode s = true →
      (Execute env uc ctx w).1.2.1 = true ∧
      (Execute env uc ctx w).2 = (fetchCurrentWeather env ctx s w).2 ∧
      (∀ e, (fetchCurrentWeather env ctx s w).1.2 = some e →
        ∃ err, (Execute env uc ctx w).1 = (none, true, some err) ∧ err.Error = e.Error) ∧
      ((fetchCurrentWeather env ctx s w).1.2 = none →
        (Execute env uc ctx w).1 = ((fetchCurrentWeather env ctx s w).1.1, true, none)) := by
    intro s hs hv
    unfold Execute
    rw [hs]
    simp only [hv]
    rcases hf : fetchCurrentWeather env ctx s w with ⟨⟨d, _ | e⟩, w1⟩
    · simp
    · refine ⟨rfl, rfl, ?_, ?_⟩
      · intro e2 he2
        cases he2
        exact ⟨_, rfl, rfl⟩
      · intro h
        cases h
  refine ⟨?_, key⟩
  constructor
  · rintro hflag ⟨s, hs, hv⟩
    rw [(key s hs hv).1] at hflag
    cases hflag
  · intro hno
    unfold Execute
    split
    · rename_i s hs
      have hv : isValidZipCode s = false := by
        cases hv : isValidZipCode s
        · rfl
        · exact absurd ⟨s, hs, hv⟩ hno
      simp [hv]
    · rfl

/-- Witness for C7: the upstream answers 404 to the valid string `99999999` (flag
`true`, message of `fetchCurrentWeather` kept), the upstream cannot be reached, and
the input is an integer (flag `false`). -/
theorem Execute_flag_and_upstream_errors_witness :
    (Execute (Env.answering (.ok ⟨404, "404 Not Found", .error (.errorString "EOF")⟩))
        (NewServicoAUseCase (.str "99999999")) ⟨[]⟩ []).1.2.1 = true ∧
    (∃ err, (Execute (Env.answering (.ok ⟨404, "404 Not Found", .error (.errorString "EOF")⟩))
        (NewServicoAUseCase (.str "99999999")) ⟨[]⟩ []).1 = (none, true, some err) ∧
      err.Error = (GoError.errorString "can not find zipcode").Error) ∧
    (∃ err, (Execute (Env.answering (.error (.errorString "connection refused")))
        (NewServicoAUseCase (.str "12345678")) ⟨[]⟩ []).1 = (none, true, some err) ∧
      err.Error = (GoError.wrapError "failed to fetch weather data: connection refused"
        (.errorString "connection refused")).Error) ∧
    (Execute (Env.answering (.error (.errorString "connection refused")))
        (NewServicoAUseCase (.int 12345678)) ⟨[]⟩ []).1.2.1 = false :=
  ⟨((Execute_flag_and_upstream_errors _ _ _ _).2 "99999999" rfl (by decide)).1,
   ((Execute_flag_and_upstream_errors _ _ _ _).2 "99999999" rfl (by decide)).2.2.1 _ rfl,
   ((Execute_flag_and_upstream_errors _ _ _ _).2 "12345678" rfl (by decide)).2.2.1 _ rfl,
   (Execute_flag_and_upstream_errors _ _ _ _).1.2 (by rintro ⟨s, hs, _⟩; cases hs)⟩

end ServicoA
/-- The `float64` sum `25.5 + 273.15` is the `float64` nearest to `298.65`. -/
theorem float64_25_5_add_273_15 :
    (Decimal.mk false 255 (-1)).toFloat64 + (Decimal.mk false 27315 (-2)).toFloat64 =
      (Decimal.mk false 29865 (-2)).toFloat64 := by
  decide!

namespace ServicoB

theorem isValidZipCodeImpl_eq_true_iff (s : String) :
    isValidZipCodeImpl s = true ↔ (s.length = 8 ∧ ∀ c ∈ s.data, '0' ≤ c ∧ c ≤ '9') :=
  Regexp.matchString_zipCodePattern s

/-- C8. When validation passes, the location fetch succeeds and the weather fetch
returns a reading, `Execute` returns a nil error and a map with exactly the keys
`temp_C`, `temp_F`, `temp_K`, where `temp_C` and `temp_F` are the reading's `TempC`
and `TempF` and `temp_K` is the `float64` sum `TempC + 273.15`. For `TempC = 25.5`
and `TempF = 77.9` the map is `temp_C: 25.5, temp_F: 77.9, temp_K: 298.65`. -/
theorem Execute_success_map {σ : Type} (fns : FnVars σ) (uc : ServicoBUseCase)
    (zipcode location : String) (weather : WeatherData) (w w1 w2 w3 : σ)
    (hvalid : fns.isValidZipCodeFn zipcode w = (true, w1))
    (hloc : fns.fetchLocationFn zipcode w1 = ((location, none), w2))
    (hweather : fns.fetchWeatherFn location uc.WeatherApiKey w2 = ((some weather, none), w3)) :
    ∃ m : GoMap, Execute fns uc zipcode w = (.returned (some m, none), w3) ∧
      m = [("temp_C", weather.TempC), ("temp_F", weather.TempF),
        ("temp_K", weather.TempC + (Decimal.mk false 27315 (-2)).toFloat64)] ∧
      m.map Prod.fst = ["temp_C", "temp_F", "temp_K"] ∧
      (weather = ⟨(Decimal.mk false 255 (-1)).toFloat64, (Decimal.mk false 779 (-1)).toFloat64⟩ →
        m = [("temp_C", (Decimal.mk false 255 (-1)).toFloat64),
          ("temp_F", (Decimal.mk false 779 (-1)).toFloat64),
          ("temp_K", (Decimal.mk false 29865 (-2)).toFloat64)]) := by
  refine ⟨_, ?_, rfl, rfl, ?_⟩
  · unfold Execute
    simp only [hvalid, hloc, hweather]
  · rintro rfl
    simp only [float64_25_5_add_273_15]

/-- Witness for C8: the first case of `TestServicoBUseCase_Execute`. -/
theorem Execute_success_map_witness :
    ∃ m : GoMap,
      Execute (FnVars.mock true "São Paulo" none
          (some ⟨(Decimal.mk false 255 (-1)).toFloat64, (Decimal.mk false 779 (-1)).toFloat64⟩)
          none)
        (NewServicoBUseCase "valid-key") "12345678" []
        = (.returned (some m, none),
            ["isValidZipCodeFn 12345678", "fetchLocationFn 12345678",
              "fetchWeatherFn São Paulo valid-key"]) ∧
      m = [("temp_C", (Decimal.mk false 255 (-1)).toFloat64),
          ("temp_F", (Decimal.mk false 779 (-1)).toFloat64),
          ("temp_K", (Decimal.mk false 29865 (-2)).toFloat64)] :=
  match Execute_success_map (FnVars.mock true "São Paulo" none
      (some ⟨(Decimal.mk false 255 (-1)).toFloat64, (Decimal.mk false 779 (-1)).toFloat64⟩) none)
      (NewServicoBUseCase "valid-key") "12345678" "São Paulo" _ [] _ _ _ rfl rfl rfl with
  | ⟨m, hex, _, _, hm⟩ => ⟨m, hex, hm rfl⟩

/-- C9. With the package's own validator in place, for every zipcode string that
is not exactly 8 ASCII digits `Execute` returns a nil map and an error whose message
is exactly `invalid zipcode`, whatever the API key and the two fetch functions are,
and neither of them is called. -/
theorem Execute_invalid_zipcode {σ : Type} (fns : FnVars σ) (uc : ServicoBUseCase)
    (zipcode : String) (w : σ)
    (hfn : ∀ z v, fns.isValidZipCodeFn z v = (isValidZipCodeImpl z, v))
    (hbad : ¬ (zipcode.length = 8 ∧ ∀ c ∈ zipcode.data, '0' ≤ c ∧ c ≤ '9')) :
    ∃ err, Execute fns uc zipcode w = (.returned (none, some err), w) ∧
      err.Error = "invalid zipcode" := by
  have hv : isValidZipCodeImpl zipcode = false := by
    cases h : isValidZipCodeImpl zipcode
    · rfl
    · exact absurd ((isValidZipCodeImpl_eq_true_iff zipcode).1 h) hbad
  refine ⟨.errorString "invalid zipcode", ?_, rfl⟩
  unfold Execute
  simp only [hfn, hv]

/-- Witness for C9: the string `invalid` and a 7-digit string, under two API keys,
against servers that would answer if they were asked. -/
theorem Execute_invalid_zipcode_witness :
    (∃ err, Execute (FnVars.initial (HttpVars.answering
          (.ok ⟨200, "200 OK", .ok (.obj [("localidade", .str "São Paulo")])⟩)
          (.error (.errorString "unreachable"))))
        (NewServicoBUseCase "valid-key") "invalid" [] = (.returned (none, some err), []) ∧
      err.Error = "invalid zipcode") ∧
    (∃ err, Execute (FnVars.initial (HttpVars.answering
          (.ok ⟨200, "200 OK", .ok (.obj [("localidade", .str "São Paulo")])⟩)
          (.error (.errorString "unreachable"))))
        (NewServicoBUseCase "") "1234567" [] = (.returned (none, some err), []) ∧
      err.Error = "invalid zipcode") :=
  ⟨Execute_invalid_zipcode _ _ "invalid" [] (fun _ _ => rfl) (by decide),
   Execute_invalid_zipcode _ _ "1234567" [] (fun _ _ => rfl) (by decide)⟩

theorem findField_location (foldName : String → String) (key : String) (f : Json.Field LocationData)
    (h : Json.findField foldName LocationData.fields key = some f) :
    f = ⟨"localidade", Json.storeString ".localidade" fun s x => { x with Localidade := s }⟩ := by
  unfold Json.findField LocationData.fields at h
  simp only [List.find?] at h
  split at h
  · rename_i g hg
    split at hg
    · cases hg; cases h; rfl
    · cases hg
  · split at h
    · cases h; rfl
    · cases h

theorem decodeObject_location_empty (foldName : String → String) (ms : List (String × Json))
    (h : ∀ m ∈ ms, (Json.findField foldName LocationData.fields m.1).isSome = true →
      m.2 = .str "") :
    Json.decodeObject foldName LocationData.fields ms (LocationData.mk "") =
      (LocationData.mk "", none) := by
  induction ms with
  | nil => rfl
  | cons m rest ih =>
    obtain ⟨key, v⟩ := m
    have ih2 := ih (fun m hm => h m (List.mem_cons_of_mem _ hm))
    cases hfind : Json.findField foldName LocationData.fields key with
    | none =>
      simp only [Json.decodeObject, hfind]
      exact ih2
    | some f =>
      have hv : v = .str "" := h (key, v) (List.mem_cons_self _ _) (by simp [hfind])
      have hf := findField_location foldName key f hfind
      subst hv hf
      simp only [Json.decodeObject, hfind, Json.storeString]
      exact ih2

/-- C10. For a valid zipcode and the package's own functions: when the geocoder
answers with a status other than 200, `Execute` fails with the message
`failed to fetch location`; when it answers 200 with a JSON object in which every
member that addresses the field `localidade` holds the empty string (none does when
the field is absent), `Execute` fails with the message `can not find zipcode`.
And whatever the function variables hold, when validation passes and the location
fetch returns an error, `Execute` returns a nil map and an error with the same
message, without calling the weather fetch; so it does with the package's own
functions for the error of a failed transport and for the error of a failed
decoding. -/
theorem Execute_location_errors {σ : Type} (uc : ServicoBUseCase) (zipcode : String) :
    (∀ (h : HttpVars σ) (w w1 : σ) (resp : Response),
      isValidZipCodeImpl zipcode = true →
      h.httpGet ("https://viacep.com.br/ws/" ++ zipcode ++ "/json/") w = (.ok resp, w1) →
      resp.StatusCode ≠ 200 →
      ∃ err, Execute (FnVars.initial h) uc zipcode w = (.returned (none, some err), w1) ∧
        err.Error = "failed to fetch location") ∧
    (∀ (h : HttpVars σ) (w w1 : σ) (resp : Response) (ms : List (String × Json)),
      isValidZipCodeImpl zipcode = true →
      h.httpGet ("https://viacep.com.br/ws/" ++ zipcode ++ "/json/") w = (.ok resp, w1) →
      resp.StatusCode = 200 →
      resp.Body = .ok (.obj ms) →
      (∀ m ∈ ms, (Json.findField h.foldName LocationData.fields m.1).isSome = true →
        m.2 = .str "") →
      ∃ err, Execute (FnVars.initial h) uc zipcode w = (.returned (none, some err), w1) ∧
        err.Error = "can not find zipcode") ∧
    (∀ (fns : FnVars σ) (w w1 w2 : σ) (location : String) (e : GoError),
      fns.isValidZipCodeFn zipcode w = (true, w1) →
      fns.fetchLocationFn zipcode w1 = ((location, some e), w2) →
      ∃ err, Execute fns uc zipcode w = (.returned (none, some err), w2) ∧
        err.Error = e.Error) ∧
    (∀ (h : HttpVars σ) (w w1 : σ) (e : GoError),
      isValidZipCodeImpl zipcode = true →
      h.httpGet ("https://viacep.com.br/ws/" ++ zipcode ++ "/json/") w = (.error e, w1) →
      ∃ err, Execute (FnVars.initial h) uc zipcode w = (.returned (none, some err), w1) ∧
        err.Error = e.Error) ∧
    (∀ (h : HttpVars σ) (w w1 : σ) (resp : Response) (e : GoError),
      isValidZipCodeImpl zipcode = true →
      h.httpGet ("https://viacep.com.br/ws/" ++ zipcode ++ "/json/") w = (.ok resp, w1) →
      resp.StatusCode = 200 →
      (decodeLocation h.foldName resp.Body).2 = some e →
      ∃ err, Execute (FnVars.initial h) uc zipcode w = (.returned (none, some err), w1) ∧
        err.Error = e.Error) := by
  have general : ∀ (fns : FnVars σ) (w w1 w2 : σ) (location : String) (e : GoError),
      fns.isValidZipCodeFn zipcode w = (true, w1) →
      fns.fetchLocationFn zipcode w1 = ((location, some e), w2) →
      ∃ err, Execute fns uc zipcode w = (.returned (none, some err), w2) ∧
        err.Error = e.Error := by
    intro fns w w1 w2 location e hv hl
    refine ⟨.errorString e.Error, ?_, rfl⟩
    unfold Execute
    simp only [hv, hl]
  refine ⟨?_, ?_, general, ?_, ?_⟩
  · intro h w w1 resp hv hget hstatus
    have hl : fetchLocationImpl h zipcode w =
        (("", some (.errorString "failed to fetch location")), w1) := by
      unfold fetchLocationImpl
      simp only [hget]
      rw [if_pos (by simpa [StatusOK] using hstatus)]
    exact general (FnVars.initial h) w w w1 "" _ (by simp [FnVars.initial, hv]) hl
  · intro h w w1 resp ms hv hget hstatus hbody hms
    have hdec : decodeLocation h.foldName resp.Body = (LocationData.mk "", none) := by
      rw [hbody]
      exact decodeObject_location_empty h.foldName ms hms
    have hl : fetchLocationImpl h zipcode w =
        (("", some (.errorString "can not find zipcode")), w1) := by
      unfold fetchLocationImpl
      simp only [hget]
      rw [if_neg (by simp [hstatus, StatusOK]), hdec]
      simp
    exact general (FnVars.initial h) w w w1 "" _ (by simp [FnVars.initial, hv]) hl
  · intro h w w1 e hv hget
    have hl : fetchLocationImpl h zipcode w = (("", some e), w1) := by
      unfold fetchLocationImpl
      simp only [hget]
    exact general (FnVars.initial h) w w w1 "" _ (by simp [FnVars.initial, hv]) hl
  · intro h w w1 resp e hv hget hstatus hdec
    have hl : fetchLocationImpl h zipcode w = (("", some e), w1) := by
      unfold fetchLocationImpl
      simp only [hget]
      rw [if_neg (by simp [hstatus, StatusOK])]
      cases hd : decodeLocation h.foldName resp.Body with
      | mk x oe =>
        rw [hd] at hdec
        cases hdec
        rfl
    exact general (FnVars.initial h) w w w1 "" _ (by simp [FnVars.initial, hv]) hl

/-- Witness for C10: the geocoder answers 404; it answers 200 with
`"localidade": ""`; it answers 200 with an object that has no such member; and a
replacement location fetch returns an error of its own; the geocoder cannot be
reached; and it answers 200 with the body `invalid json` of `TestFetchLocation`. -/
theorem Execute_location_errors_witness :
    (∃ err, Execute (FnVars.initial (HttpVars.answering
          (.ok ⟨404, "404 Not Found", .error (.errorString "EOF")⟩)
          (.error (.errorString "unreachable"))))
        (NewServicoBUseCase "valid-key") "88888888" []
        = (.returned (none, some err), ["GET https://viacep.com.br/ws/88888888/json/"]) ∧
      err.Error = "failed to fetch location") ∧
    (∃ err, Execute (FnVars.initial (HttpVars.answering
          (.ok ⟨200, "200 OK", .ok (.obj [("localidade", .str "")])⟩)
          (.error (.errorString "unreachable"))))
        (NewServicoBUseCase "valid-key") "99999999" []
        = (.returned (none, some err), ["GET https://viacep.com.br/ws/99999999/json/"]) ∧
      err.Error = "can not find zipcode") ∧
    (∃ err, Execute (FnVars.initial (HttpVars.answering
          (.ok ⟨200, "200 OK", .ok (.obj [("erro", .bool true)])⟩)
          (.error (.errorString "unreachable"))))
        (NewServicoBUseCase "valid-key") "99999999" []
        = (.returned (none, some err), ["GET https://viacep.com.br/ws/99999999/json/"]) ∧
      err.Error = "can not find zipcode") ∧
    (∃ err, Execute (FnVars.mock true "" (some (.errorString "dial tcp: i/o timeout")) none none)
        (NewServicoBUseCase "valid-key") "12345678" []
        = (.returned (none, some err),
            ["isValidZipCodeFn 12345678", "fetchLocationFn 12345678"]) ∧
      err.Error = (GoError.errorString "dial tcp: i/o timeout").Error) ∧
    (∃ err, Execute (FnVars.initial (HttpVars.answering
          (.error (.errorString "Get: connection refused"))
          (.error (.errorString "unreachable"))))
        (NewServicoBUseCase "valid-key") "12345678" []
        = (.returned (none, some err), ["GET https://viacep.com.br/ws/12345678/json/"]) ∧
      err.Error = (GoError.errorString "Get: connection refused").Error) ∧
    (∃ err, Execute (FnVars.initial (HttpVars.answering
          (.ok ⟨200, "200 OK", .error (.errorString
            "invalid character 'i' looking for beginning of value")⟩)
          (.error (.errorString "unreachable"))))
        (NewServicoBUseCase "valid-key") "77777777" []
        = (.returned (none, some err), ["GET https://viacep.com.br/ws/77777777/json/"]) ∧
      err.Error = (GoError.errorString
        "invalid character 'i' looking for beginning of value").Error) :=
  ⟨(Execute_location_errors (NewServicoBUseCase "valid-key") "88888888").1
      _ [] _ _ (by decide) rfl (by decide),
   (Execute_location_errors (NewServicoBUseCase "valid-key") "99999999").2.1
      _ [] _ _ _ (by decide) rfl rfl rfl
      (by intro m hm; simp at hm; subst hm; intro _; rfl),
   (Execute_location_errors (NewServicoBUseCase "valid-key") "99999999").2.1
      _ [] _ _ _ (by decide) rfl rfl rfl
      (by intro m hm; simp at hm; subst hm; intro h; exact absurd h (by decide!)),
   (Execute_location_errors (NewServicoBUseCase "valid-key") "12345678").2.2.1
      _ [] _ _ _ _ rfl rfl,
   (Execute_location_errors (NewServicoBUseCase "valid-key") "12345678").2.2.2.1
      _ [] _ _ (by decide) rfl,
   (Execute_location_errors (NewServicoBUseCase "valid-key") "77777777").2.2.2.2
      _ [] _ _ _ (by decide) rfl rfl rfl⟩

/-- C11. When validation and the location fetch succeed and the weather fetch
returns an error `e`, `Execute` returns a nil map and an error that wraps `e` and
whose message is `failed to fetch weather data: ` followed by the message of `e`: it
begins with `failed to fetch weather data` and ends with the message of `e`. With
the package's own functions, a weather provider answering with a status other than
200 gives the message `failed to fetch weather data: failed to fetch weather data`,
and one answering 200 with a body whose decoding reports `e` gives
`failed to fetch weather data: ` followed by the message of `e`. -/
theorem Execute_weather_errors {σ : Type} (uc : ServicoBUseCase) (zipcode location : String) :
    (∀ (fns : FnVars σ) (w w1 w2 w3 : σ) (wd : Option WeatherData) (e : GoError),
      fns.isValidZipCodeFn zipcode w = (true, w1) →
      fns.fetchLocationFn zipcode w1 = ((location, none), w2) →
      fns.fetchWeatherFn location uc.WeatherApiKey w2 = ((wd, some e), w3) →
      ∃ err, Execute fns uc zipcode w = (.returned (none, some err), w3) ∧
        err = .wrapError ("failed to fetch weather data: " ++ e.Error) e ∧
        err.Error = "failed to fetch weather data: " ++ e.Error ∧
        ∃ rest, err.Error = "failed to fetch weather data" ++ rest) ∧
    (∀ (h : HttpVars σ) (w w1 w2 w3 : σ) (req : Request) (resp : Response),
      isValidZipCodeImpl zipcode = true →
      fetchLocationImpl h zipcode w = ((location, none), w1) →
      h.httpNewRequest "GET" "http://api.weatherapi.com/v1/current.json" w1 = (.ok req, w2) →
      h.httpClientDo
          { req with
            RawQuery := Values.Encode
              (Values.Add (Values.Add req.RawQuery "key" uc.WeatherApiKey) "q" location) }
          w2 = (.ok resp, w3) →
      resp.StatusCode ≠ 200 →
      ∃ err, Execute (FnVars.initial h) uc zipcode w = (.returned (none, some err), w3) ∧
        err.Error = "failed to fetch weather data: failed to fetch weather data") ∧
    (∀ (h : HttpVars σ) (w w1 w2 w3 : σ) (req : Request) (resp : Response) (e : GoError),
      isValidZipCodeImpl zipcode = true →
      fetchLocationImpl h zipcode w = ((location, none), w1) →
      h.httpNewRequest "GET" "http://api.weatherapi.com/v1/current.json" w1 = (.ok req, w2) →
      h.httpClientDo
          { req with
            RawQuery := Values.Encode
              (Values.Add (Values.Add req.RawQuery "key" uc.WeatherApiKey) "q" location) }
          w2 = (.ok resp, w3) →
      resp.StatusCode = 200 →
      (decodeCurrent h.foldName resp.Body).2 = some e →
      ∃ err, Execute (FnVars.initial h) uc zipcode w = (.returned (none, some err), w3) ∧
        err.Error = "failed to fetch weather data: " ++ e.Error) := by
  have general : ∀ (fns : FnVars σ) (w w1 w2 w3 : σ) (wd : Option WeatherData) (e : GoError),
      fns.isValidZipCodeFn zipcode w = (true, w1) →
      fns.fetchLocationFn zipcode w1 = ((location, none), w2) →
      fns.fetchWeatherFn location uc.WeatherApiKey w2 = ((wd, some e), w3) →
      ∃ err, Execute fns uc zipcode w = (.returned (none, some err), w3) ∧
        err = .wrapError ("failed to fetch weather data: " ++ e.Error) e ∧
        err.Error = "failed to fetch weather data: " ++ e.Error ∧
        ∃ rest, err.Error = "failed to fetch weather data" ++ rest := by
    intro fns w w1 w2 w3 wd e hv hl hw
    refine ⟨_, ?_, rfl, rfl, ": " ++ e.Error, ?_⟩
    · unfold Execute
      simp only [hv, hl, hw]
    · show "failed to fetch weather data: " ++ e.Error = _
      rw [← String.append_assoc]
      rfl
  refine ⟨general, ?_, ?_⟩
  · intro h w w1 w2 w3 req resp hv hl hreq hdo hstatus
    have hw : fetchWeatherImpl h location uc.WeatherApiKey w1 =
        ((none, some (.errorString "failed to fetch weather data")), w3) := by
      unfold fetchWeatherImpl
      simp only [hreq, hdo]
      rw [if_pos (by simpa [StatusOK] using hstatus)]
    obtain ⟨err, hex, _, hmsg, _⟩ :=
      general (FnVars.initial h) w w w1 w3 none _ (by simp [FnVars.initial, hv]) hl hw
    exact ⟨err, hex, hmsg⟩
  · intro h w w1 w2 w3 req resp e hv hl hreq hdo hstatus hdec
    have hw : fetchWeatherImpl h location uc.WeatherApiKey w1 = ((none, some e), w3) := by
      unfold fetchWeatherImpl
      simp only [hreq, hdo]
      rw [if_neg (by simp [hstatus, StatusOK])]
      cases hd : decodeCurrent h.foldName resp.Body with
      | mk x oe =>
        rw [hd] at hdec
        cases hdec
        rfl
    obtain ⟨err, hex, _, hmsg, _⟩ :=
      general (FnVars.initial h) w w w1 w3 none _ (by simp [FnVars.initial, hv]) hl hw
    exact ⟨err, hex, hmsg⟩

/-- Witness for C11: the weather provider answers 500; it answers 200 with the body
`invalid json` of `TestFetchWeather`; and the last case of
`TestServicoBUseCase_Execute`, a replacement weather fetch that returns an error. -/
theorem Execute_weather_errors_witness :
    (∃ err, Execute (FnVars.initial (HttpVars.answering
          (.ok ⟨200, "200 OK", .ok (.obj [("localidade", .str "Rio de Janeiro")])⟩)
          (.ok ⟨500, "500 Internal Server Error", .error (.errorString "EOF")⟩)))
        (NewServicoBUseCase "valid-key") "12345678" []
        = (.returned (none, some err), ["GET https://viacep.com.br/ws/12345678/json/",
            "GET http://api.weatherapi.com/v1/current.json"]) ∧
      err.Error = "failed to fetch weather data: failed to fetch weather data") ∧
    (∃ err, Execute (FnVars.initial (HttpVars.answering
          (.ok ⟨200, "200 OK", .ok (.obj [("localidade", .str "Curitiba")])⟩)
          (.ok ⟨200, "200 OK", .error (.errorString
            "invalid character 'i' looking for beginning of value")⟩)))
        (NewServicoBUseCase "valid-key") "12345678" []
        = (.returned (none, some err), ["GET https://viacep.com.br/ws/12345678/json/",
            "GET http://api.weatherapi.com/v1/current.json"]) ∧
      err.Error = "failed to fetch weather data: " ++ (GoError.errorString
        "invalid character 'i' looking for beginning of value").Error) ∧
    (∃ err, Execute (FnVars.mock true "São Paulo" none none
          (some (.errorString "failed to fetch weather data")))
        (NewServicoBUseCase "valid-key") "12345678" []
        = (.returned (none, some err), ["isValidZipCodeFn 12345678",
            "fetchLocationFn 12345678", "fetchWeatherFn São Paulo valid-key"]) ∧
      err = .wrapError ("failed to fetch weather data: " ++
        (GoError.errorString "failed to fetch weather data").Error)
        (.errorString "failed to fetch weather data") ∧
      err.Error = "failed to fetch weather data: " ++
        (GoError.errorString "failed to fetch weather data").Error ∧
      ∃ rest, err.Error = "failed to fetch weather data" ++ rest) :=
  ⟨(Execute_weather_errors (NewServicoBUseCase "valid-key") "12345678" "Rio de Janeiro").2.1
      _ [] ["GET https://viacep.com.br/ws/12345678/json/"]
      ["GET https://viacep.com.br/ws/12345678/json/"] _ _ _ (by decide) (by decide!) rfl rfl
      (by decide),
   (Execute_weather_errors (NewServicoBUseCase "valid-key") "12345678" "Curitiba").2.2
      _ [] ["GET https://viacep.com.br/ws/12345678/json/"]
      ["GET https://viacep.com.br/ws/12345678/json/"] _ _ _ _ (by decide) (by decide!) rfl rfl
      rfl rfl,
   (Execute_weather_errors (NewServicoBUseCase "valid-key") "12345678" "São Paulo").1
      _ [] _ _ _ _ _ rfl rfl rfl⟩

/-- C15. `Execute` calls `isValidZipCodeFn`, then `fetchLocationFn`, then
`fetchWeatherFn`, and stops at the first failure. When validation fails it returns
in the world that the validator left, when the location fetch fails in the world that
the location fetch left, and otherwise in the world left by `fetchWeatherFn` called
with the location that `fetchLocationFn` returned and with `WeatherApiKey`. Whenever
it returns, exactly one of the map and the error is non-nil: the map is nil on
every failure and the error is nil on success. With function variables that record
their calls, the record is the validator alone, then the validator and the location
fetch, then all three with those arguments. -/
theorem Execute_call_order {σ : Type} (fns : FnVars σ) (uc : ServicoBUseCase)
    (zipcode : String) (w : σ) :
    (∀ w1, fns.isValidZipCodeFn zipcode w = (false, w1) →
      ∃ err, Execute fns uc zipcode w = (.returned (none, some err), w1)) ∧
    (∀ w1 w2 location e, fns.isValidZipCodeFn zipcode w = (true, w1) →
      fns.fetchLocationFn zipcode w1 = ((location, some e), w2) →
      ∃ err, Execute fns uc zipcode w = (.returned (none, some err), w2)) ∧
    (∀ w1 w2 location, fns.isValidZipCodeFn zipcode w = (true, w1) →
      fns.fetchLocationFn zipcode w1 = ((location, none), w2) →
      (Execute fns uc zipcode w).2 = (fns.fetchWeatherFn location uc.WeatherApiKey w2).2 ∧
      (∀ wd e, (fns.fetchWeatherFn location uc.WeatherApiKey w2).1 = (wd, some e) →
        ∃ err, (Execute fns uc zipcode w).1 = .returned (none, some err)) ∧
      (∀ weather, (fns.fetchWeatherFn location uc.WeatherApiKey w2).1 = (some weather, none) →
        ∃ m, (Execute fns uc zipcode w).1 = .returned (some m, none))) ∧
    (∀ m e, (Execute fns uc zipcode w).1 = .returned (m, e) →
      (m = none ∧ e.isSome = true) ∨ (m.isSome = true ∧ e = none)) ∧
    (∀ (valid : String → Bool) (locate : String → String × Option GoError)
        (weather : String → String → Option WeatherData × Option GoError),
      (Execute (FnVars.recording valid locate weather) uc zipcode []).2 =
        if valid zipcode = false then [Call.isValidZipCodeFn zipcode]
        else if (locate zipcode).2.isSome = true then
          [Call.isValidZipCodeFn zipcode, Call.fetchLocationFn zipcode]
        else
          [Call.isValidZipCodeFn zipcode, Call.fetchLocationFn zipcode,
            Call.fetchWeatherFn (locate zipcode).1 uc.WeatherApiKey]) := by
  refine ⟨?_, ?_, ?_, ?_, ?_⟩
  · intro w1 hv
    refine ⟨.errorString "invalid zipcode", ?_⟩
    unfold Execute
    simp only [hv]
  · intro w1 w2 location e hv hl
    refine ⟨.errorString e.Error, ?_⟩
    unfold Execute
    simp only [hv, hl]
  · intro w1 w2 location hv hl
    unfold Execute
    simp only [hv, hl]
    rcases hw : fns.fetchWeatherFn location uc.WeatherApiKey w2 with ⟨⟨wd, _ | e⟩, w3⟩
    · cases wd <;> simp
    · simp
  · intro m e hex
    unfold Execute at hex
    rcases hv : fns.isValidZipCodeFn zipcode w with ⟨_ | _, w1⟩
    · simp only [hv] at hex
      cases hex
      simp
    · simp only [hv] at hex
      rcases hl : fns.fetchLocationFn zipcode w1 with ⟨⟨location, _ | e1⟩, w2⟩
      · simp only [hl] at hex
        rcases hw : fns.fetchWeatherFn location uc.WeatherApiKey w2 with ⟨⟨_ | wd, _ | e2⟩, w3⟩ <;>
          simp only [hw] at hex <;> cases hex <;> simp
      · simp only [hl] at hex
        cases hex
        simp
  · intro valid locate weather
    unfold Execute
    simp only [FnVars.recording]
    cases hv : valid zipcode
    · simp
    · rcases hl : locate zipcode with ⟨location, _ | e1⟩
      · rcases hw : weather location uc.WeatherApiKey with ⟨_ | wd, _ | e2⟩ <;> simp [hw]
      · simp

/-- Witness for C15: the four cases of `TestServicoBUseCase_Execute`, with the
calls recorded. -/
theorem Execute_call_order_witness :
    (Execute (FnVars.recording (fun _ => false) (fun _ => ("São Paulo", none))
        (fun _ _ => (none, none))) (NewServicoBUseCase "valid-key") "invalid" []).2
      = [Call.isValidZipCodeFn "invalid"] ∧
    (Execute (FnVars.recording (fun _ => true)
        (fun _ => ("", some (.errorString "can not find zipcode")))
        (fun _ _ => (none, none))) (NewServicoBUseCase "valid-key") "12345678" []).2
      = [Call.isValidZipCodeFn "12345678", Call.fetchLocationFn "12345678"] ∧
    (Execute (FnVars.recording (fun _ => true) (fun _ => ("São Paulo", none))
        (fun _ _ => (none, some (.errorString "failed to fetch weather data"))))
        (NewServicoBUseCase "valid-key") "12345678" []).2
      = [Call.isValidZipCodeFn "12345678", Call.fetchLocationFn "12345678",
          Call.fetchWeatherFn "São Paulo" "valid-key"] ∧
    (∃ m, (Execute (FnVars.mock true "São Paulo" none
          (some ⟨(Decimal.mk false 255 (-1)).toFloat64, (Decimal.mk false 779 (-1)).toFloat64⟩)
          none) (NewServicoBUseCase "valid-key") "12345678" []).1 = .returned (some m, none)) ∧
    (∃ err, Execute (FnVars.mock false "" none none none) (NewServicoBUseCase "valid-key")
        "invalid" [] = (.returned (none, some err), ["isValidZipCodeFn invalid"])) :=
  ⟨(Execute_call_order (FnVars.mock true "" none none none) (NewServicoBUseCase "valid-key")
      "invalid" []).2.2.2.2 _ _ _,
   (Execute_call_order (FnVars.mock true "" none none none) (NewServicoBUseCase "valid-key")
      "12345678" []).2.2.2.2 _ _ _,
   (Execute_call_order (FnVars.mock true "" none none none) (NewServicoBUseCase "valid-key")
      "12345678" []).2.2.2.2 _ _ _,
   ((Execute_call_order _ (NewServicoBUseCase "valid-key") "12345678" []).2.2.1
      _ _ "São Paulo" rfl rfl).2.2 _ rfl,
   (Execute_call_order _ (NewServicoBUseCase "valid-key") "invalid" []).1 _ rfl⟩

end ServicoB

theorem Header.Get_Set (h : List (String × String)) (key value : String) :
    Header.Get (Header.Set h key value) key = value := by
  unfold Header.Get Header.Set
  have hnone : (h.filter fun p => p.1 != key).find? (fun p => p.1 == key) = none := by
    rw [List.find?_eq_none]
    intro p hp
    have := (List.mem_filter.1 hp).2
    simpa using this
  rw [List.find?_append, hnone]
  simp

theorem httpError_StatusCode (rw : ResponseWriter) (error : String) (code : Int)
    (hrw : rw.code = none) : (httpError rw error code).StatusCode = code := by
  simp [httpError, ResponseWriter.Write, ResponseWriter.WriteHeader, ResponseWriter.StatusCode,
    hrw]

theorem httpError_body (rw : ResponseWriter) (error : String) (code : Int) :
    (httpError rw error code).body = rw.body ++ [.text (error ++ "\n")] := by
  unfold httpError ResponseWriter.Write ResponseWriter.WriteHeader
  cases hc : rw.code <;> simp

theorem encodeTo_StatusCode (rw : ResponseWriter) (text : Option JsonText)
    (hrw : rw.code = none) : (encodeTo rw text).StatusCode = 200 := by
  cases text <;>
    simp [encodeTo, ResponseWriter.Write, ResponseWriter.WriteHeader,
      ResponseWriter.StatusCode, hrw, StatusOK]

theorem encodeTo_header (rw : ResponseWriter) (text : Option JsonText) :
    (encodeTo rw text).header = rw.header := by
  cases text with
  | none => rfl
  | some t =>
    unfold encodeTo ResponseWriter.Write ResponseWriter.WriteHeader
    cases hc : rw.code <;> simp

theorem encodeTo_body (rw : ResponseWriter) (t : JsonText) :
    (encodeTo rw (some t)).body = rw.body ++ [.json t] := by
  unfold encodeTo ResponseWriter.Write ResponseWriter.WriteHeader
  cases hc : rw.code <;> simp

theorem ServicoA.Execute_eq_invalid {σ : Type} (env : ServicoA.Env σ)
    (uc : ServicoA.ServicoAUseCase) (ctx : Context) (w : σ)
    (h : ∀ s, uc.ZipCode = .str s → ServicoA.isValidZipCode s = false) :
    ServicoA.Execute env uc ctx w = ((none, false, some (.errorString "invalid zipcode")), w) := by
  unfold ServicoA.Execute
  split
  · rename_i s hs
    simp [h s hs]
  · rfl

namespace Handlers

theorem decodeWeatherRequest_cep_num (foldName : String → String) (d : Decimal) (f : Float64)
    (hp : d.ParseFloat = some f) :
    decodeWeatherRequest foldName (.ok (.obj [("cep", .num d)])) = (⟨.float64 f⟩, none) := by
  simp [decodeWeatherRequest, Json.Decode, Json.decodeStruct, Json.decodeObject,
    Json.findField, WeatherRequest.fields, hp]

/-- C12. `ProcessServicoA`, on a writer whose header is not yet written, always
answers with one of the statuses 200, 400, 404, 422: a request body that does not
decode gives 400 with the text `Invalid request body`; a use-case error with the
flag `false` gives 422; a use-case error with the flag `true` gives 404 when its
message is exactly `can not find zipcode` and 400 otherwise; no error gives 200 with
`Content-Type: application/json` and the JSON text of the data. Hence every decoded
request whose `cep` is not a string of 8 ASCII digits gives 422. -/
theorem ProcessServicoA_status {σ : Type} (h : WeatherHandler σ) (env : Env σ)
    (rw : ResponseWriter) (r : IncomingRequest) (w : σ) (hrw : rw.code = none) :
    ((ProcessServicoA h env rw r w).1.StatusCode = 200 ∨
      (ProcessServicoA h env rw r w).1.StatusCode = 400 ∨
      (ProcessServicoA h env rw r w).1.StatusCode = 404 ∨
      (ProcessServicoA h env rw r w).1.StatusCode = 422) ∧
    (∀ e, (decodeWeatherRequest env.servicoA.foldName r.Body).2 = some e →
      (ProcessServicoA h env rw r w).1.StatusCode = 400 ∧
      (ProcessServicoA h env rw r w).1.body = rw.body ++ [.text "Invalid request body\n"] ∧
      (ProcessServicoA h env rw r w).2 = w) ∧
    (∀ data flag oerr w1,
      (decodeWeatherRequest env.servicoA.foldName r.Body).2 = none →
      ServicoA.Execute env.servicoA
        (ServicoA.NewServicoAUseCase
          (decodeWeatherRequest env.servicoA.foldName r.Body).1.ZipCode)
        (h.tracerStart (env.extract r.Context r.Header) env.requestNameOtel) w
        = ((data, flag, oerr), w1) →
      (∀ err, oerr = some err → flag = false →
        (ProcessServicoA h env rw r w).1.StatusCode = 422) ∧
      (∀ err, oerr = some err → flag = true → err.Error = "can not find zipcode" →
        (ProcessServicoA h env rw r w).1.StatusCode = 404) ∧
      (∀ err, oerr = some err → flag = true → err.Error ≠ "can not find zipcode" →
        (ProcessServicoA h env rw r w).1.StatusCode = 400) ∧
      (∀ err, oerr = some err →
        (ProcessServicoA h env rw r w).1.body = rw.body ++ [.text (err.Error ++ "\n")]) ∧
      (oerr = none →
        (ProcessServicoA h env rw r w).1.StatusCode = 200 ∧
        Header.Get (ProcessServicoA h env rw r w).1.header "Content-Type" = "application/json" ∧
        ∀ t, marshalWeatherData data = some t →
          (ProcessServicoA h env rw r w).1.body = rw.body ++ [.json t])) ∧
    ((decodeWeatherRequest env.servicoA.foldName r.Body).2 = none →
      (∀ s, (decodeWeatherRequest env.servicoA.foldName r.Body).1.ZipCode = .str s →
        ¬ (s.length = 8 ∧ ∀ c ∈ s.data, '0' ≤ c ∧ c ≤ '9')) →
      (ProcessServicoA h env rw r w).1.StatusCode = 422 ∧
      (ProcessServicoA h env rw r w).1.body = rw.body ++ [.text "invalid zipcode\n"]) := by
  have hdecErr : ∀ request e,
      decodeWeatherRequest env.servicoA.foldName r.Body = (request, some e) →
      ProcessServicoA h env rw r w = (httpError rw "Invalid request body" StatusBadRequest, w) := by
    intro request e hd
    unfold ProcessServicoA
    simp only [hd]
  have hdecOk : ∀ request data flag oerr w1,
      decodeWeatherRequest env.servicoA.foldName r.Body = (request, none) →
      ServicoA.Execute env.servicoA (ServicoA.NewServicoAUseCase request.ZipCode)
        (h.tracerStart (env.extract r.Context r.Header) env.requestNameOtel) w
        = ((data, flag, oerr), w1) →
      ProcessServicoA h env rw r w =
        match oerr with
        | some err =>
          if flag = false then (httpError rw err.Error StatusUnprocessableEntity, w1)
          else if err.Error = "can not find zipcode" then
            (httpError rw err.Error StatusNotFound, w1)
          else (httpError rw err.Error StatusBadRequest, w1)
        | none =>
          (encodeTo { rw with header := Header.Set rw.header "Content-Type" "application/json" }
            (marshalWeatherData data), w1) := by
    intro request data flag oerr w1 hd hex
    unfold ProcessServicoA
    simp only [hd, hex]
    cases oerr with
    | none => rfl
    | some err => cases flag <;> simp
  rcases hd : decodeWeatherRequest env.servicoA.foldName r.Body with ⟨request, oe⟩
  simp only
  refine ⟨?_, ?_, ?_, ?_⟩
  · cases oe with
    | none =>
      rcases hex : ServicoA.Execute env.servicoA (ServicoA.NewServicoAUseCase request.ZipCode)
        (h.tracerStart (env.extract r.Context r.Header) env.requestNameOtel) w
        with ⟨⟨data, flag, oerr⟩, w1⟩
      rw [hdecOk request data flag oerr w1 hd hex]
      cases oerr with
      | none =>
        left
        exact encodeTo_StatusCode _ _ hrw
      | some err =>
        cases flag
        · right; right; right
          simp [httpError_StatusCode _ _ _ hrw, StatusUnprocessableEntity]
        · by_cases hm : err.Error = "can not find zipcode"
          · right; right; left
            simp [hm, httpError_StatusCode _ _ _ hrw, StatusNotFound]
          · right; left
            simp [hm, httpError_StatusCode _ _ _ hrw, StatusBadRequest]
    | some e =>
      right; left
      rw [hdecErr request e hd]
      simp [httpError_StatusCode _ _ _ hrw, StatusBadRequest]
  · rintro e rfl
    rw [hdecErr request e hd]
    exact ⟨by simp [httpError_StatusCode _ _ _ hrw, StatusBadRequest], httpError_body _ _ _, rfl⟩
  · rintro data flag oerr w1 rfl hex
    rw [hdecOk request data flag oerr w1 hd hex]
    refine ⟨?_, ?_, ?_, ?_, ?_⟩
    · rintro err rfl rfl
      simp [httpError_StatusCode _ _ _ hrw, StatusUnprocessableEntity]
    · rintro err rfl rfl hm
      simp [hm, httpError_StatusCode _ _ _ hrw, StatusNotFound]
    · rintro err rfl rfl hm
      simp [hm, httpError_StatusCode _ _ _ hrw, StatusBadRequest]
    · rintro err rfl
      cases flag
      · simp [httpError_body]
      · by_cases hm : err.Error = "can not find zipcode" <;> simp [hm, httpError_body]
    · rintro rfl
      refine ⟨encodeTo_StatusCode _ _ hrw, ?_, ?_⟩
      · simp only [encodeTo_header]
        exact Header.Get_Set _ _ _
      · intro t ht
        simp only [ht, encodeTo_body]
  · rintro rfl hbad
    have hex := ServicoA.Execute_eq_invalid env.servicoA
      (ServicoA.NewServicoAUseCase request.ZipCode)
      (h.tracerStart (env.extract r.Context r.Header) env.requestNameOtel) w
      (by
        intro s hs
        cases hv : ServicoA.isValidZipCode s
        · rfl
        · exact absurd ((ServicoA.isValidZipCode_eq_true_iff s).1 hv) (hbad s hs))
    rw [hdecOk request none false _ w hd hex]
    simp [httpError_StatusCode _ _ _ hrw, httpError_body, StatusUnprocessableEntity,
      GoError.Error]

/-- Witness for C12: a body that is not JSON; the bodies `{"cep": 12345678}`,
`{"cep": null}`, `{}` and `{"cep": "1234567"}`; and a string of 8 digits with an
upstream that answers 404, one that answers 500, and one that answers 200 with the
three temperatures. -/
theorem ProcessServicoA_status_witness :
    (ProcessServicoA (WeatherHandler.mock fun _ => (none, none))
        (Env.answering (.error (.errorString "unreachable"))) ResponseWriter.fresh
        ⟨.error (.errorString "unexpected EOF"), [], ⟨[]⟩, []⟩ []).1.StatusCode = 400 ∧
    (ProcessServicoA (WeatherHandler.mock fun _ => (none, none))
        (Env.answering (.error (.errorString "unreachable"))) ResponseWriter.fresh
        ⟨.ok (.obj [("cep", .num ⟨false, 12345678, 0⟩)]), [], ⟨[]⟩, []⟩ []).1.StatusCode = 422 ∧
    (ProcessServicoA (WeatherHandler.mock fun _ => (none, none))
        (Env.answering (.error (.errorString "unreachable"))) ResponseWriter.fresh
        ⟨.ok (.obj [("cep", .null)]), [], ⟨[]⟩, []⟩ []).1.StatusCode = 422 ∧
    (ProcessServicoA (WeatherHandler.mock fun _ => (none, none))
        (Env.answering (.error (.errorString "unreachable"))) ResponseWriter.fresh
        ⟨.ok (.obj []), [], ⟨[]⟩, []⟩ []).1.StatusCode = 422 ∧
    (ProcessServicoA (WeatherHandler.mock fun _ => (none, none))
        (Env.answering (.error (.errorString "unreachable"))) ResponseWriter.fresh
        ⟨.ok (.obj [("cep", .str "1234567")]), [], ⟨[]⟩, []⟩ []).1.StatusCode = 422 ∧
    (ProcessServicoA (WeatherHandler.mock fun _ => (none, none))
        (Env.answering (.ok ⟨404, "404 Not Found", .error (.errorString "EOF")⟩))
        ResponseWriter.fresh
        ⟨.ok (.obj [("cep", .str "99999999")]), [], ⟨[]⟩, []⟩ []).1.StatusCode = 404 ∧
    (ProcessServicoA (WeatherHandler.mock fun _ => (none, none))
        (Env.answering (.ok ⟨500, "500 Internal Server Error", .error (.errorString "EOF")⟩))
        ResponseWriter.fresh
        ⟨.ok (.obj [("cep", .str "88888888")]), [], ⟨[]⟩, []⟩ []).1.StatusCode = 400 ∧
    ((ProcessServicoA (WeatherHandler.mock fun _ => (none, none))
        (Env.answering (.ok ⟨200, "200 OK", .ok (.obj [("temp_c", .num ⟨false, 255, -1⟩),
          ("temp_f", .num ⟨false, 779, -1⟩), ("temp_k", .num ⟨false, 29865, -2⟩)])⟩))
        ResponseWriter.fresh
        ⟨.ok (.obj [("cep", .str "12345678")]), [], ⟨[]⟩, []⟩ []).1.StatusCode = 200 ∧
      Header.Get (ProcessServicoA (WeatherHandler.mock fun _ => (none, none))
        (Env.answering (.ok ⟨200, "200 OK", .ok (.obj [("temp_c", .num ⟨false, 255, -1⟩),
          ("temp_f", .num ⟨false, 779, -1⟩), ("temp_k", .num ⟨false, 29865, -2⟩)])⟩))
        ResponseWriter.fresh
        ⟨.ok (.obj [("cep", .str "12345678")]), [], ⟨[]⟩, []⟩ []).1.header "Content-Type"
        = "application/json") := by
  obtain ⟨f, hnum⟩ : ∃ f, (Decimal.mk false 12345678 0).ParseFloat = some f :=
    ⟨(Decimal.mk false 12345678 0).toFloat64, by decide!⟩
  refine ⟨?_, ?_, ?_, ?_, ?_, ?_, ?_, ?_⟩
  · exact ((ProcessServicoA_status (WeatherHandler.mock fun _ => (none, none))
      (Env.answering (.error (.errorString "unreachable"))) ResponseWriter.fresh
      ⟨.error (.errorString "unexpected EOF"), [], ⟨[]⟩, []⟩ [] rfl).2.1
      (.errorString "unexpected EOF") rfl).1
  · refine ((ProcessServicoA_status (WeatherHandler.mock fun _ => (none, none))
      (Env.answering (.error (.errorString "unreachable"))) ResponseWriter.fresh
      ⟨.ok (.obj [("cep", .num ⟨false, 12345678, 0⟩)]), [], ⟨[]⟩, []⟩ [] rfl).2.2.2
      (by decide!) ?_).1
    intro s hs
    have hz : decodeWeatherRequest
        (Env.answering (.error (.errorString "unreachable"))).servicoA.foldName
        (IncomingRequest.mk (.ok (.obj [("cep", .num ⟨false, 12345678, 0⟩)])) [] ⟨[]⟩ []).Body
        = (⟨.float64 f⟩, none) := decodeWeatherRequest_cep_num _ _ f hnum
    rw [hz] at hs
    cases hs
  · refine ((ProcessServicoA_status (WeatherHandler.mock fun _ => (none, none))
      (Env.answering (.error (.errorString "unreachable"))) ResponseWriter.fresh
      ⟨.ok (.obj [("cep", .null)]), [], ⟨[]⟩, []⟩ [] rfl).2.2.2
      (by decide!) ?_).1
    intro s hs
    simp [decodeWeatherRequest, Json.Decode, Json.decodeStruct, Json.decodeObject,
      Json.findField, WeatherRequest.fields, Json.toInterface] at hs
  · refine ((ProcessServicoA_status (WeatherHandler.mock fun _ => (none, none))
      (Env.answering (.error (.errorString "unreachable"))) ResponseWriter.fresh
      ⟨.ok (.obj []), [], ⟨[]⟩, []⟩ [] rfl).2.2.2
      (by decide!) ?_).1
    intro s hs
    simp [decodeWeatherRequest, Json.Decode, Json.decodeStruct, Json.decodeObject] at hs
  · refine ((ProcessServicoA_status (WeatherHandler.mock fun _ => (none, none))
      (Env.answering (.error (.errorString "unreachable"))) ResponseWriter.fresh
      ⟨.ok (.obj [("cep", .str "1234567")]), [], ⟨[]⟩, []⟩ [] rfl).2.2.2
      (by decide!) ?_).1
    intro s hs
    simp [decodeWeatherRequest, Json.Decode, Json.decodeStruct, Json.decodeObject,
      Json.findField, WeatherRequest.fields, Json.toInterface] at hs
    subst hs
    decide
  · exact ((ProcessServicoA_status (WeatherHandler.mock fun _ => (none, none))
      (Env.answering (.ok ⟨404, "404 Not Found", .error (.errorString "EOF")⟩)) ResponseWriter.fresh
      ⟨.ok (.obj [("cep", .str "99999999")]), [], ⟨[]⟩, []⟩ [] rfl).2.2.1
      none true (some (.errorString "can not find zipcode")) ["GET http://upstream/99999999"]
      (by decide!) (by decide!)).2.1 _ rfl rfl rfl
  · exact ((ProcessServicoA_status (WeatherHandler.mock fun _ => (none, none))
      (Env.answering (.ok ⟨500, "500 Internal Server Error", .error (.errorString "EOF")⟩)) ResponseWriter.fresh
      ⟨.ok (.obj [("cep", .str "88888888")]), [], ⟨[]⟩, []⟩ [] rfl).2.2.1
      none true (some (.errorString "failed to fetch weather data: 500 Internal Server Error"))
      ["GET http://upstream/88888888"]
      (by decide!) (by decide!)).2.2.1 _ rfl rfl (by decide)
  · have h200 := ((ProcessServicoA_status (WeatherHandler.mock fun _ => (none, none))
        (Env.answering (.ok ⟨200, "200 OK", .ok (.obj [("temp_c", .num ⟨false, 255, -1⟩),
          ("temp_f", .num ⟨false, 779, -1⟩), ("temp_k", .num ⟨false, 29865, -2⟩)])⟩))
        ResponseWriter.fresh ⟨.ok (.obj [("cep", .str "12345678")]), [], ⟨[]⟩, []⟩ [] rfl).2.2.1
      (some ⟨(Decimal.mk false 255 (-1)).toFloat64, (Decimal.mk false 779 (-1)).toFloat64,
        (Decimal.mk false 29865 (-2)).toFloat64⟩) true none ["GET http://upstream/12345678"]
      (by decide!) (by decide!)).2.2.2.2 rfl
    exact ⟨h200.1, h200.2.1⟩

end Handlers

theorem weather_prefixed_ne_not_found (x : String) :
    "failed to fetch weather data: " ++ x ≠ "can not find zipcode" := by
  intro h
  have := congrArg String.data h
  rw [String.data_append] at this
  simp at this

namespace Handlers

theorem ProcessServicoB_of_error {σ : Type} (h : WeatherHandler σ) (rw : ResponseWriter)
    (r : IncomingRequest) (w w1 : σ) (m : Option GoMap) (err : GoError)
    (hex : h.ServicoBUseCase (URLParam r "zipcode") w = (.returned (m, some err), w1)) :
    ProcessServicoB h rw r w =
      (.returned (httpError rw err.Error
        (if err.Error = "can not find zipcode" then StatusNotFound
          else StatusInternalServerError)), w1) := by
  unfold ProcessServicoB
  simp only [hex]
  by_cases hm : err.Error = "can not find zipcode" <;> simp [hm]

theorem ProcessServicoB_of_success {σ : Type} (h : WeatherHandler σ) (rw : ResponseWriter)
    (r : IncomingRequest) (w w1 : σ) (m : Option GoMap)
    (hex : h.ServicoBUseCase (URLParam r "zipcode") w = (.returned (m, none), w1)) :
    ProcessServicoB h rw r w =
      (.returned (encodeTo
        { rw with header := Header.Set rw.header "Content-Type" "application/json" }
        (marshalMap m)), w1) := by
  unfold ProcessServicoB
  simp only [hex]

theorem ProcessServicoB_of_panic {σ : Type} (h : WeatherHandler σ) (rw : ResponseWriter)
    (r : IncomingRequest) (w w1 : σ) (reason : String)
    (hex : h.ServicoBUseCase (URLParam r "zipcode") w = (.panicked reason, w1)) :
    ProcessServicoB h rw r w = (.panicked reason, w1) := by
  unfold ProcessServicoB
  simp only [hex]

/-- C13. `ProcessServicoB`, on a writer whose header is not yet written, calls the
use case with the URL parameter `zipcode` as it stands and maps what it returns: an
error whose message is exactly `can not find zipcode` gives 404 and any other error
gives 500, the body being the message followed by a newline; no error gives 200
with `Content-Type: application/json` and, as body, the JSON text of the map. -/
theorem ProcessServicoB_status {σ : Type} (h : WeatherHandler σ) (rw : ResponseWriter)
    (r : IncomingRequest) (w : σ) (hrw : rw.code = none) :
    (∀ m err w1, h.ServicoBUseCase (URLParam r "zipcode") w = (.returned (m, some err), w1) →
      ∃ out, ProcessServicoB h rw r w = (.returned out, w1) ∧
        (err.Error = "can not find zipcode" → out.StatusCode = 404) ∧
        (err.Error ≠ "can not find zipcode" → out.StatusCode = 500) ∧
        out.body = rw.body ++ [.text (err.Error ++ "\n")]) ∧
    (∀ m w1, h.ServicoBUseCase (URLParam r "zipcode") w = (.returned (m, none), w1) →
      ∃ out, ProcessServicoB h rw r w = (.returned out, w1) ∧
        out.StatusCode = 200 ∧
        Header.Get out.header "Content-Type" = "application/json" ∧
        ∀ t, marshalMap m = some t → out.body = rw.body ++ [.json t]) ∧
    (∀ (ExecuteFn : String → Option GoMap × Option GoError) (calls : List String),
      (ProcessServicoB (WeatherHandler.mock ExecuteFn) rw r calls).2 =
        calls ++ [URLParam r "zipcode"]) ∧
    (∀ (zipcode : String) (params : List (String × String)),
      URLParam { r with URLParams := params ++ [("zipcode", zipcode)] } "zipcode" = zipcode) := by
  refine ⟨?_, ?_, ?_, ?_⟩
  · intro m err w1 hex
    refine ⟨_, ProcessServicoB_of_error h rw r w w1 m err hex, ?_, ?_, httpError_body _ _ _⟩
    · intro hm
      rw [httpError_StatusCode _ _ _ hrw, if_pos hm]
      rfl
    · intro hm
      rw [httpError_StatusCode _ _ _ hrw, if_neg hm]
      rfl
  · intro m w1 hex
    refine ⟨_, ProcessServicoB_of_success h rw r w w1 m hex, encodeTo_StatusCode _ _ hrw, ?_, ?_⟩
    · rw [encodeTo_header]
      exact Header.Get_Set _ _ _
    · intro t ht
      rw [ht, encodeTo_body]
  · intro ExecuteFn calls
    rcases hf : ExecuteFn (URLParam r "zipcode") with ⟨m, _ | err⟩
    · rw [ProcessServicoB_of_success (WeatherHandler.mock ExecuteFn) rw r calls
        (calls ++ [URLParam r "zipcode"]) m (by simp [WeatherHandler.mock, hf])]
    · rw [ProcessServicoB_of_error (WeatherHandler.mock ExecuteFn) rw r calls
        (calls ++ [URLParam r "zipcode"]) m err (by simp [WeatherHandler.mock, hf])]
  · intro zipcode params
    simp [URLParam]

/-- Witness for C13: the two handler tests (a map and the error `invalid zipcode`),
and a use case that returns `can not find zipcode`. -/
theorem ProcessServicoB_status_witness :
    (∃ out, ProcessServicoB
        (WeatherHandler.mock fun _ => (some [("temp_C", .finite false (25 * 2 ^ 1074)),
          ("temp_F", .finite false (77 * 2 ^ 1074)),
          ("temp_K", (Decimal.mk false 29815 (-2)).toFloat64)], none))
        ResponseWriter.fresh ⟨.error (.errorString "EOF"), [], ⟨[]⟩, [("zipcode", "12345678")]⟩ []
        = (.returned out, ["12345678"]) ∧
      out.StatusCode = 200 ∧
      Header.Get out.header "Content-Type" = "application/json" ∧
      out.body = [.json (.object [("temp_C", .finite false (25 * 2 ^ 1074)),
          ("temp_F", .finite false (77 * 2 ^ 1074)),
          ("temp_K", (Decimal.mk false 29815 (-2)).toFloat64)])]) ∧
    (∃ out, ProcessServicoB
        (WeatherHandler.mock fun _ => (none, some (.errorString "invalid zipcode")))
        ResponseWriter.fresh ⟨.error (.errorString "EOF"), [], ⟨[]⟩, [("zipcode", "invalid")]⟩ []
        = (.returned out, ["invalid"]) ∧
      out.StatusCode = 500 ∧ out.body = [.text "invalid zipcode\n"]) ∧
    (∃ out, ProcessServicoB
        (WeatherHandler.mock fun _ => (none, some (.errorString "can not find zipcode")))
        ResponseWriter.fresh ⟨.error (.errorString "EOF"), [], ⟨[]⟩, [("zipcode", "99999999")]⟩ []
        = (.returned out, ["99999999"]) ∧
      out.StatusCode = 404 ∧ out.body = [.text "can not find zipcode\n"]) := by
  refine ⟨?_, ?_, ?_⟩
  · obtain ⟨out, hout, hs, hh, hb⟩ := (ProcessServicoB_status
      (WeatherHandler.mock fun _ => (some [("temp_C", .finite false (25 * 2 ^ 1074)),
          ("temp_F", .finite false (77 * 2 ^ 1074)),
          ("temp_K", (Decimal.mk false 29815 (-2)).toFloat64)], none))
      ResponseWriter.fresh ⟨.error (.errorString "EOF"), [], ⟨[]⟩, [("zipcode", "12345678")]⟩ []
      rfl).2.1 _ ["12345678"] rfl
    exact ⟨out, hout, hs, hh, hb _ (by decide!)⟩
  · obtain ⟨out, hout, _, hs, hb⟩ := (ProcessServicoB_status
      (WeatherHandler.mock fun _ => (none, some (.errorString "invalid zipcode")))
      ResponseWriter.fresh ⟨.error (.errorString "EOF"), [], ⟨[]⟩, [("zipcode", "invalid")]⟩ []
      rfl).1 none (.errorString "invalid zipcode") ["invalid"] rfl
    exact ⟨out, hout, hs (by decide), hb⟩
  · obtain ⟨out, hout, hs, _, hb⟩ := (ProcessServicoB_status
      (WeatherHandler.mock fun _ => (none, some (.errorString "can not find zipcode")))
      ResponseWriter.fresh ⟨.error (.errorString "EOF"), [], ⟨[]⟩, [("zipcode", "99999999")]⟩ []
      rfl).1 none (.errorString "can not find zipcode") ["99999999"] rfl
    exact ⟨out, hout, hs rfl, hb⟩

/-- C14. With the handler that `NewWeatherHandler` builds, on a writer whose header
is not yet written, `ProcessServicoB` answers 404 exactly when validation passes and
the location fetch returns an error whose message is exactly `can not find zipcode`.
A validation failure gives 500, and a weather-fetch error gives 500 whatever its
message is, because the error of `Execute` then reads `failed to fetch weather data: `
followed by that message, which is never `can not find zipcode`. -/
theorem ProcessServicoB_not_found_iff {σ : Type} (apiKey : String) (fns : ServicoB.FnVars σ)
    (tracerStart : Context → String → Context) (rw : ResponseWriter) (r : IncomingRequest)
    (w : σ) (hrw : rw.code = none) :
    ((∃ out w1, ProcessServicoB (NewWeatherHandler apiKey fns tracerStart) rw r w
          = (.returned out, w1) ∧ out.StatusCode = 404) ↔
      ((fns.isValidZipCodeFn (URLParam r "zipcode") w).1 = true ∧
        ∃ e, (fns.fetchLocationFn (URLParam r "zipcode")
            (fns.isValidZipCodeFn (URLParam r "zipcode") w).2).1.2 = some e ∧
          e.Error = "can not find zipcode")) ∧
    ((fns.isValidZipCodeFn (URLParam r "zipcode") w).1 = false →
      ∃ out w1, ProcessServicoB (NewWeatherHandler apiKey fns tracerStart) rw r w
          = (.returned out, w1) ∧ out.StatusCode = 500 ∧
        out.body = rw.body ++ [.text "invalid zipcode\n"]) ∧
    (∀ w1 w2 w3 location wd e,
      fns.isValidZipCodeFn (URLParam r "zipcode") w = (true, w1) →
      fns.fetchLocationFn (URLParam r "zipcode") w1 = ((location, none), w2) →
      fns.fetchWeatherFn location apiKey w2 = ((wd, some e), w3) →
      (∃ err, ServicoB.Execute fns (ServicoB.NewServicoBUseCase apiKey) (URLParam r "zipcode") w
          = (.returned (none, some err), w3) ∧
        err.Error = "failed to fetch weather data: " ++ e.Error ∧
        err.Error ≠ "can not find zipcode") ∧
      ∃ out, ProcessServicoB (NewWeatherHandler apiKey fns tracerStart) rw r w
          = (.returned out, w3) ∧ out.StatusCode = 500) := by
  have h404 : (404 : Int) ≠ 500 := by decide
  have h200 : (200 : Int) ≠ 404 := by decide
  have hinv : ("invalid zipcode" : String) ≠ "can not find zipcode" := by decide
  rcases hv : fns.isValidZipCodeFn (URLParam r "zipcode") w with ⟨valid, w1⟩
  cases valid with
  | false =>
    have hex : (NewWeatherHandler apiKey fns tracerStart).ServicoBUseCase (URLParam r "zipcode") w
        = (.returned (none, some (.errorString "invalid zipcode")), w1) := by
      simp only [NewWeatherHandler, ServicoB.Execute, hv]
    have hp := ProcessServicoB_of_error _ rw r w w1 none _ hex
    have hcode : (httpError rw (GoError.errorString "invalid zipcode").Error
        (if (GoError.errorString "invalid zipcode").Error = "can not find zipcode"
          then StatusNotFound else StatusInternalServerError)).StatusCode = 500 := by
      have hne : ¬ (GoError.errorString "invalid zipcode").Error = "can not find zipcode" :=
        hinv
      rw [httpError_StatusCode _ _ _ hrw, if_neg hne]
      rfl
    refine ⟨⟨?_, ?_⟩, ?_, ?_⟩
    · rintro ⟨out, w', hout, hs⟩
      rw [hp] at hout
      cases hout
      rw [hcode] at hs
      exact absurd hs.symm h404
    · rintro ⟨hfalse, _⟩
      cases hfalse
    · intro _
      exact ⟨_, _, hp, hcode, httpError_body _ _ _⟩
    · intro w1' w2 w3 location wd e hv'
      cases hv'
  | true =>
    rcases hl : fns.fetchLocationFn (URLParam r "zipcode") w1 with ⟨⟨location, oe⟩, w2⟩
    cases oe with
    | some e =>
      have hex : (NewWeatherHandler apiKey fns tracerStart).ServicoBUseCase
          (URLParam r "zipcode") w = (.returned (none, some (.errorString e.Error)), w2) := by
        simp only [NewWeatherHandler, ServicoB.Execute, hv, hl]
      have hp := ProcessServicoB_of_error _ rw r w w2 none _ hex
      refine ⟨⟨?_, ?_⟩, ?_, ?_⟩
      · rintro ⟨out, w', hout, hs⟩
        rw [hp] at hout
        cases hout
        rw [httpError_StatusCode _ _ _ hrw] at hs
        refine ⟨rfl, e, rfl, ?_⟩
        by_contra hne
        have hne2 : ¬ (GoError.errorString e.Error).Error = "can not find zipcode" := hne
        rw [if_neg hne2] at hs
        exact absurd hs.symm h404
      · rintro ⟨_, e2, he2, hm⟩
        cases he2
        refine ⟨_, _, hp, ?_⟩
        have hm2 : (GoError.errorString e.Error).Error = "can not find zipcode" := hm
        rw [httpError_StatusCode _ _ _ hrw, if_pos hm2]
        rfl
      · intro hfalse
        cases hfalse
      · intro w1' w2' w3 location' wd e' hv' hl'
        cases hv'
        rw [hl] at hl'
        cases hl'
    | none =>
      refine ⟨⟨?_, ?_⟩, ?_, ?_⟩
      · rintro ⟨out, w', hout, hs⟩
        exfalso
        rcases hw : fns.fetchWeatherFn location apiKey w2 with ⟨⟨wd, oe2⟩, w3⟩
        cases oe2 with
        | some e2 =>
          have hex : (NewWeatherHandler apiKey fns tracerStart).ServicoBUseCase
              (URLParam r "zipcode") w = (.returned (none, some
                (.wrapError ("failed to fetch weather data: " ++ e2.Error) e2)), w3) := by
            simp only [NewWeatherHandler, ServicoB.Execute, hv, hl, ServicoB.NewServicoBUseCase,
              hw]
          rw [ProcessServicoB_of_error _ rw r w w3 none _ hex] at hout
          cases hout
          have hne : ¬ (GoError.wrapError ("failed to fetch weather data: " ++ e2.Error)
              e2).Error = "can not find zipcode" := weather_prefixed_ne_not_found e2.Error
          rw [httpError_StatusCode _ _ _ hrw, if_neg hne] at hs
          exact absurd hs.symm h404
        | none =>
          cases wd with
          | none =>
            have hex : (NewWeatherHandler apiKey fns tracerStart).ServicoBUseCase
                (URLParam r "zipcode") w
                = (.panicked "invalid memory address or nil pointer dereference", w3) := by
              simp only [NewWeatherHandler, ServicoB.Execute, hv, hl,
                ServicoB.NewServicoBUseCase, hw]
            rw [ProcessServicoB_of_panic _ rw r w w3 _ hex] at hout
            cases hout
          | some weather =>
            have hex : (NewWeatherHandler apiKey fns tracerStart).ServicoBUseCase
                (URLParam r "zipcode") w
                = (.returned (some [("temp_C", weather.TempC), ("temp_F", weather.TempF),
                    ("temp_K", weather.TempC + (Decimal.mk false 27315 (-2)).toFloat64)],
                    none), w3) := by
              simp only [NewWeatherHandler, ServicoB.Execute, hv, hl,
                ServicoB.NewServicoBUseCase, hw]
            rw [ProcessServicoB_of_success _ rw r w w3 _ hex] at hout
            cases hout
            have hcode := encodeTo_StatusCode
              { rw with header := Header.Set rw.header "Content-Type" "application/json" }
              (marshalMap (some [("temp_C", weather.TempC), ("temp_F", weather.TempF),
                ("temp_K", weather.TempC + (Decimal.mk false 27315 (-2)).toFloat64)])) hrw
            rw [hcode] at hs
            exact h200 hs
      · rintro ⟨_, e2, he2, _⟩
        cases he2
      · intro hfalse
        cases hfalse
      · intro w1' w2' w3 location' wd e hv' hl' hw
        cases hv'
        rw [hl] at hl'
        cases hl'
        have hexU : ServicoB.Execute fns (ServicoB.NewServicoBUseCase apiKey)
            (URLParam r "zipcode") w = (.returned (none, some
              (.wrapError ("failed to fetch weather data: " ++ e.Error) e)), w3) := by
          simp only [ServicoB.Execute, hv, hl, ServicoB.NewServicoBUseCase, hw]
        refine ⟨⟨_, hexU, rfl, weather_prefixed_ne_not_found e.Error⟩, ?_⟩
        have hex : (NewWeatherHandler apiKey fns tracerStart).ServicoBUseCase
            (URLParam r "zipcode") w = (.returned (none, some
              (.wrapError ("failed to fetch weather data: " ++ e.Error) e)), w3) := hexU
        refine ⟨_, ProcessServicoB_of_error _ rw r w w3 none _ hex, ?_⟩
        have hne : ¬ (GoError.wrapError ("failed to fetch weather data: " ++ e.Error)
            e).Error = "can not find zipcode" := weather_prefixed_ne_not_found e.Error
        rw [httpError_StatusCode _ _ _ hrw, if_neg hne]
        rfl

/-- Witness for C14: a location fetch that fails with `can not find zipcode` (404),
a validation failure (500), and a weather fetch that fails with the very message
`can not find zipcode` (500). -/
theorem ProcessServicoB_not_found_iff_witness :
    (∃ out w1, ProcessServicoB
        (NewWeatherHandler "valid-key"
          (ServicoB.FnVars.mock true "" (some (.errorString "can not find zipcode")) none none)
          fun ctx _ => ctx)
        ResponseWriter.fresh ⟨.error (.errorString "EOF"), [], ⟨[]⟩, [("zipcode", "99999999")]⟩ []
        = (.returned out, w1) ∧ out.StatusCode = 404) ∧
    (∃ out w1, ProcessServicoB
        (NewWeatherHandler "valid-key" (ServicoB.FnVars.mock false "" none none none)
          fun ctx _ => ctx)
        ResponseWriter.fresh ⟨.error (.errorString "EOF"), [], ⟨[]⟩, [("zipcode", "invalid")]⟩ []
        = (.returned out, w1) ∧ out.StatusCode = 500 ∧
      out.body = ResponseWriter.fresh.body ++ [.text "invalid zipcode\n"]) ∧
    (∃ out, ProcessServicoB
        (NewWeatherHandler "valid-key"
          (ServicoB.FnVars.mock true "São Paulo" none none
            (some (.errorString "can not find zipcode")))
          fun ctx _ => ctx)
        ResponseWriter.fresh ⟨.error (.errorString "EOF"), [], ⟨[]⟩, [("zipcode", "12345678")]⟩ []
        = (.returned out, ["isValidZipCodeFn 12345678", "fetchLocationFn 12345678",
            "fetchWeatherFn São Paulo valid-key"]) ∧ out.StatusCode = 500) :=
  ⟨(ProcessServicoB_not_found_iff "valid-key"
      (ServicoB.FnVars.mock true "" (some (.errorString "can not find zipcode")) none none)
      (fun ctx _ => ctx) ResponseWriter.fresh
      ⟨.error (.errorString "EOF"), [], ⟨[]⟩, [("zipcode", "99999999")]⟩ [] rfl).1.2
      ⟨rfl, .errorString "can not find zipcode", rfl, rfl⟩,
   (ProcessServicoB_not_found_iff "valid-key" (ServicoB.FnVars.mock false "" none none none)
      (fun ctx _ => ctx) ResponseWriter.fresh
      ⟨.error (.errorString "EOF"), [], ⟨[]⟩, [("zipcode", "invalid")]⟩ [] rfl).2.1 rfl,
   ((ProcessServicoB_not_found_iff "valid-key"
      (ServicoB.FnVars.mock true "São Paulo" none none
        (some (.errorString "can not find zipcode")))
      (fun ctx _ => ctx) ResponseWriter.fresh
      ⟨.error (.errorString "EOF"), [], ⟨[]⟩, [("zipcode", "12345678")]⟩ [] rfl).2.2
      ["isValidZipCodeFn 12345678"] ["isValidZipCodeFn 12345678", "fetchLocationFn 12345678"]
      ["isValidZipCodeFn 12345678", "fetchLocationFn 12345678",
        "fetchWeatherFn São Paulo valid-key"]
      "São Paulo" none (.errorString "can not find zipcode") rfl rfl rfl).2⟩

end Handlers

end LabOtel
